import Mathlib

set_option maxHeartbeats 2000000
set_option maxRecDepth 20000

/-!
Shallow embedding of the MiniFS on-disk file-system engine (Rust sources
under src/fs and src/disk) and proofs settling the frozen claims about it.

Modelling conventions:
* machine integers (u64/u32/u16/u8) are Nat; the only arithmetic where
  wrap-around is reachable are the free-counter updates, modelled explicitly
  modulo 2^64 (Rust release-mode wrapping);
* byte buffers are `List Nat` with entries below 256 by construction;
* fallible Rust code returns `Except String`; a Rust panic (out-of-bounds
  index, `.unwrap()` on an error) is modelled as an `Except.error` whose
  message starts with "panic:", since both abort the operation;
* the wall clock (`utils::current_timestamp`) and the random UUID generator
  (`utils::generate_uuid`) are environment inputs, modelled as fixed
  constants; no claim depends on their values beyond the UUID string being
  nonempty.
-/

instance {ε α : Type} [DecidableEq ε] [DecidableEq α] : DecidableEq (Except ε α)
  | .error a, .error b =>
    if h : a = b then .isTrue (congrArg Except.error h)
    else .isFalse (fun hc => h (Except.error.inj hc))
  | .error _, .ok _ => .isFalse Except.noConfusion
  | .ok _, .error _ => .isFalse Except.noConfusion
  | .ok a, .ok b =>
    if h : a = b then .isTrue (congrArg Except.ok h)
    else .isFalse (fun hc => h (Except.ok.inj hc))

/-- Rust u64 wrapping subtraction `x - y` (the code underflows counters). -/
def wsub64 (x y : Nat) : Nat := (x + (2 ^ 64 - y % 2 ^ 64)) % 2 ^ 64

/-- Rust u64 wrapping addition `x + y`. -/
def wadd64 (x y : Nat) : Nat := (x + y) % 2 ^ 64

/-- disk/types.rs: `BLOCK_SIZE = 4096`. -/
def BLOCK_SIZE : Nat := 4096

/-- `u8::count_ones` on a byte value. -/
def count_ones8 (b : Nat) : Nat := (List.range 8).countP (fun i => b.testBit i)

/-- utils.rs `generate_uuid`: a random v4 UUID rendered as a 36-character
string.  Modelled as a fixed (nonempty) string. -/
def generate_uuid : String := "00000000-0000-4000-8000-000000000000"

/-- utils.rs `current_timestamp`: seconds since the epoch.  Modelled as a
fixed constant. -/
def current_timestamp : Nat := 1700000000

/-! ## Block device (disk/file_disk.rs)

The backing image file is a fixed number of 4096-byte blocks.
`read_block` seeks to `block_id * BLOCK_SIZE` and reads exactly one block,
failing with an I/O error when the read would run past the end of file. -/

structure FileDisk where
  totalBlocks : Nat
  data : Nat → List Nat

def FileDisk.read_block (d : FileDisk) (block_id : Nat) : Except String (List Nat) :=
  if block_id < d.totalBlocks then .ok (d.data block_id) else .error "io: short read"

/-! ## Inode bitmap (fs/inode_bitmap.rs) -/

structure InodeBitmap where
  bits : List Nat
  total_inodes : Nat
  free_inodes : Nat
  start_block : Nat
deriving DecidableEq

def InodeBitmap.new (total_inodes start_block : Nat) : InodeBitmap :=
  { bits := List.replicate ((total_inodes + 7) / 8) 0
    total_inodes := total_inodes
    free_inodes := total_inodes
    start_block := start_block }

/-- Inner loop of `alloc`: first clear bit (0..8) of a byte. -/
def firstClearBit (b : Nat) : Option Nat :=
  (List.range 8).find? (fun i => ! b.testBit i)

/-- Byte-by-byte scan shared by both bitmaps' `alloc`: for the first byte
not equal to 0xFF, set its first clear bit and return the updated byte
vector together with the global bit index `byte_index * 8 + bit`. -/
def allocScan : List Nat → Nat → Option (List Nat × Nat)
  | [], _ => none
  | b :: rest, byteIndex =>
    if b ≠ 255 then
      match firstClearBit b with
      | some bit => some ((b ||| (1 <<< bit)) :: rest, byteIndex * 8 + bit)
      | none =>
        match allocScan rest (byteIndex + 1) with
        | some (rest2, idx) => some (b :: rest2, idx)
        | none => none
    else
      match allocScan rest (byteIndex + 1) with
      | some (rest2, idx) => some (b :: rest2, idx)
      | none => none

def InodeBitmap.alloc (bm : InodeBitmap) : Option (InodeBitmap × Nat) :=
  match allocScan bm.bits 0 with
  | some (bits2, idx) =>
    some ({ bm with bits := bits2, free_inodes := wsub64 bm.free_inodes 1 }, idx)
  | none => none

/-- `free`: out-of-range indices (`>= total_inodes`) are silently ignored;
an index whose byte lies outside the byte vector panics in Rust. -/
def InodeBitmap.free (bm : InodeBitmap) (inode_index : Nat) : Except String InodeBitmap :=
  if inode_index ≥ bm.total_inodes then .ok bm
  else
    match bm.bits.get? (inode_index / 8) with
    | none => .error "panic: bitmap byte index out of bounds"
    | some b =>
      if b &&& (1 <<< (inode_index % 8)) ≠ 0 then
        .ok { bm with
              bits := bm.bits.set (inode_index / 8) (b &&& (255 ^^^ (1 <<< (inode_index % 8))))
              free_inodes := wadd64 bm.free_inodes 1 }
      else .ok bm

/-- `is_used`: bit test (the Rust code panics on a byte index out of range;
every use below is in range). -/
def InodeBitmap.is_used (bm : InodeBitmap) (inode_index : Nat) : Bool :=
  ((bm.bits.getD (inode_index / 8) 0) &&& (1 <<< (inode_index % 8))) ≠ 0

/-- `load`: read `ceil(total/(8*4096))` blocks, concatenate, truncate to
`ceil(total/8)` bytes, recompute the free count from the popcount. -/
def InodeBitmap.load (disk : FileDisk) (start_block total_inodes : Nat) :
    Except String InodeBitmap := do
  let sizeInBlock := (total_inodes + 8 * 4096 - 1) / (8 * 4096)
  let mut bits : List Nat := []
  for i in List.range sizeInBlock do
    let buf ← disk.read_block (start_block + i)
    bits := bits ++ buf
  bits := bits.take ((total_inodes + 7) / 8)
  let used := (bits.map count_ones8).sum
  .ok { bits := bits
        total_inodes := total_inodes
        free_inodes := wsub64 total_inodes used
        start_block := start_block }

/-! ## Data-block bitmap (fs/data_block_bitmap.rs)

Identical to the inode bitmap except for the bound check in `free`, which
uses `>` (so `free(total_blocks)` is *not* rejected). -/

structure DataBlockBitmap where
  bits : List Nat
  total_blocks : Nat
  free_blocks : Nat
  start_block : Nat
deriving DecidableEq

def DataBlockBitmap.new (total_blocks start_block : Nat) : DataBlockBitmap :=
  { bits := List.replicate ((total_blocks + 7) / 8) 0
    total_blocks := total_blocks
    free_blocks := total_blocks
    start_block := start_block }

def DataBlockBitmap.alloc (bm : DataBlockBitmap) : Option (DataBlockBitmap × Nat) :=
  match allocScan bm.bits 0 with
  | some (bits2, idx) =>
    some ({ bm with bits := bits2, free_blocks := wsub64 bm.free_blocks 1 }, idx)
  | none => none

def DataBlockBitmap.free (bm : DataBlockBitmap) (block_index : Nat) :
    Except String DataBlockBitmap :=
  if block_index > bm.total_blocks then .ok bm
  else
    match bm.bits.get? (block_index / 8) with
    | none => .error "panic: bitmap byte index out of bounds"
    | some b =>
      if b &&& (1 <<< (block_index % 8)) ≠ 0 then
        .ok { bm with
              bits := bm.bits.set (block_index / 8) (b &&& (255 ^^^ (1 <<< (block_index % 8))))
              free_blocks := wadd64 bm.free_blocks 1 }
      else .ok bm

def DataBlockBitmap.is_used (bm : DataBlockBitmap) (block_index : Nat) : Bool :=
  ((bm.bits.getD (block_index / 8) 0) &&& (1 <<< (block_index % 8))) ≠ 0

def DataBlockBitmap.load (disk : FileDisk) (start_block total_blocks : Nat) :
    Except String DataBlockBitmap := do
  let sizeInBlock := (total_blocks + 8 * 4096 - 1) / (8 * 4096)
  let mut bits : List Nat := []
  for i in List.range sizeInBlock do
    let buf ← disk.read_block (start_block + i)
    bits := bits ++ buf
  bits := bits.take ((total_blocks + 7) / 8)
  let used := (bits.map count_ones8).sum
  .ok { bits := bits
        total_blocks := total_blocks
        free_blocks := wsub64 total_blocks used
        start_block := start_block }

/-! ## Data area (fs/data_area.rs)

An in-memory byte buffer of `total_blocks * BLOCK_SIZE` bytes with one
dirty flag per block.  The source stores the bytes as one flat `Vec<u8>`
and every access is block-aligned (`write_block` copies `buf` to offset
`index * BLOCK_SIZE` and zero-fills the rest of that 4096-byte slot;
`read_block` returns exactly the slot's 4096-byte slice), so the buffer is
modelled at block granularity: entry `i` of `blocks` holds the bytes at
offsets `[i * BLOCK_SIZE, (i+1) * BLOCK_SIZE)`.  Note that both operations
index the buffer directly with the id they are given; `start_block` is
used only when talking to the disk in `sync`/`load`. -/

structure DataArea where
  blocks : List (List Nat)
  total_blocks : Nat
  start_block : Nat
  dirty : List Bool

def DataArea.new (start_block total_blocks : Nat) : DataArea :=
  { blocks := List.replicate total_blocks (List.replicate BLOCK_SIZE 0)
    total_blocks := total_blocks
    start_block := start_block
    dirty := List.replicate total_blocks false }

/-- `write_block(index, buf)`: bounds-check `index` against `total_blocks`,
reject oversized buffers, copy `buf` to offset `index * BLOCK_SIZE` and
zero-fill the rest of the 4096-byte slot, mark the slot dirty. -/
def DataArea.write_block (da : DataArea) (index : Nat) (buf : List Nat) :
    Except String DataArea :=
  if index ≥ da.total_blocks then .error "Block index out of range"
  else if buf.length > BLOCK_SIZE then .error "Data too large"
  else
    .ok { da with
          blocks := da.blocks.set index (buf ++ List.replicate (BLOCK_SIZE - buf.length) 0)
          dirty := da.dirty.set index true }

/-- `read_block(index)`: the 4096-byte slice at `index * BLOCK_SIZE`, or
none when `index` is out of range. -/
def DataArea.read_block (da : DataArea) (index : Nat) : Option (List Nat) :=
  if index ≥ da.total_blocks then none
  else some (da.blocks.getD index [])

/-- `load`: read every slot from the device (block `start_block + i` into
slot `i`), clearing all dirty flags; fails when a read goes past the end of
the device. -/
def DataArea.load (da : DataArea) (disk : FileDisk) : Except String DataArea :=
  if da.start_block + da.total_blocks ≤ disk.totalBlocks ∨ da.total_blocks = 0 then
    .ok { da with
          blocks := (List.range da.total_blocks).map (fun i => disk.data (da.start_block + i))
          dirty := List.replicate da.total_blocks false }
  else .error "io: short read"

/-! ## Inodes and the inode table (fs/inode_table.rs) -/

inductive InodeType where
  | File
  | Directory
  | Symlink
deriving DecidableEq

/-- fs/inode_table.rs: `DIRECT_PTRS = 12`. -/
def DIRECT_PTRS : Nat := 12

structure Inode where
  id : String
  inode_type : InodeType
  size : Nat
  permissions : Nat
  uid : Nat
  gid : Nat
  link_count : Nat
  atime : Nat
  mtime : Nat
  ctime : Nat
  direct_blocks : List Nat
  indirect_block : Option Nat
  double_indirect_block : Option Nat
deriving DecidableEq

def Inode.new (inode_type : InodeType) (uid gid permissions : Nat) : Inode :=
  { id := generate_uuid
    inode_type := inode_type
    size := 0
    permissions := permissions
    uid := uid
    gid := gid
    link_count := 1
    atime := current_timestamp
    mtime := current_timestamp
    ctime := current_timestamp
    direct_blocks := List.replicate DIRECT_PTRS 0
    indirect_block := none
    double_indirect_block := none }

def Inode.empty : Inode :=
  { id := ""
    inode_type := .File
    size := 0
    permissions := 0
    uid := 0
    gid := 0
    link_count := 0
    atime := 0
    mtime := 0
    ctime := 0
    direct_blocks := List.replicate DIRECT_PTRS 0
    indirect_block := none
    double_indirect_block := none }

def Inode.touch (ino : Inode) : Inode :=
  { ino with atime := current_timestamp, mtime := current_timestamp, ctime := current_timestamp }

/-- Helper for `add_block`: replace the first zero pointer. -/
def setFirstZero : List Nat → Nat → Option (List Nat)
  | [], _ => none
  | p :: rest, block_id =>
    if p = 0 then some (block_id :: rest)
    else (setFirstZero rest block_id).map (fun l => p :: l)

/-- `Inode::add_block`: fill the first zero direct pointer; otherwise use the
single-indirect slot; otherwise fail. -/
def Inode.add_block (ino : Inode) (block_id : Nat) : Except String Inode :=
  match setFirstZero ino.direct_blocks block_id with
  | some db => .ok { ino with direct_blocks := db }
  | none =>
    match ino.indirect_block with
    | none => .ok { ino with indirect_block := some block_id }
    | some _ => .error "No space in inode block pointers"

structure InodeTable where
  inodes : List Inode
  start_block : Nat
  total_inodes : Nat
deriving DecidableEq

/-- `InodeTable::new`: note that the inode vector starts *empty*
(`Vec::new()`), not with `total_inodes` sentinel records. -/
def InodeTable.new (start_block total_inodes : Nat) : InodeTable :=
  { inodes := [], start_block := start_block, total_inodes := total_inodes }

/-- `alloc_inode`: refuse when the vector already holds `total_inodes`
records; otherwise ask the bitmap for an index and overwrite that slot
(`self.inodes[index] = inode`, which panics when the slot does not exist).
`ok none` is the source's `None`; `error` is a panic. -/
def InodeTable.alloc_inode (t : InodeTable) (bm : InodeBitmap) (inode_type : InodeType)
    (uid gid perm : Nat) : Except String (Option (InodeTable × InodeBitmap × Nat)) :=
  if t.inodes.length ≥ t.total_inodes then .ok none
  else
    match bm.alloc with
    | some (bm2, index) =>
      if index < t.inodes.length then
        .ok (some ({ t with inodes := t.inodes.set index (Inode.new inode_type uid gid perm) },
                   bm2, index))
      else .error "panic: inode slot index out of bounds"
    | none => .ok none

/-- `free_inode`: overwrite the slot with the sentinel and clear the bit
(`self.inodes[i]` panics when the slot does not exist). -/
def InodeTable.free_inode (t : InodeTable) (bm : InodeBitmap) (inode_index : Nat) :
    Except String (InodeTable × InodeBitmap) :=
  if inode_index < t.inodes.length then do
    let bm2 ← bm.free inode_index
    .ok ({ t with inodes := t.inodes.set inode_index Inode.empty }, bm2)
  else .error "panic: inode index out of bounds"

def InodeTable.get_inode (t : InodeTable) (index : Nat) : Option Inode :=
  t.inodes.get? index

/-! ## Superblock (fs/super_block.rs) -/

structure SuperBlock where
  fs_type : String
  block_size : Nat
  total_blocks : Nat
  free_blocks : Nat
  data_block_start : Nat
  total_inodes : Nat
  free_inode : Nat
  inode_table_start : Nat
  inode_bitmap_start : Nat
  block_bitmap_start : Nat
  mounted : Bool
  dirty : Bool
  magic : Nat
deriving DecidableEq

/-- `SuperBlock::new(total_inodes)`: fixed 4096-byte blocks, 16384 total
blocks (64 MiB), layout offsets computed from the bitmap and table sizes.
Note `free_blocks` is initialised to `total_blocks` and `free_inode` to
`total_inodes`. -/
def SuperBlock.new (total_inodes : Nat) : SuperBlock :=
  let block_size : Nat := 4096
  let total_blocks : Nat := 64 * 1024 * 1024 / block_size
  let superblock_size : Nat := 1
  let inode_bitmap_size : Nat := (total_inodes + 8 * block_size - 1) / (8 * block_size)
  let block_bitmap_size : Nat := (total_blocks + 8 * block_size - 1) / (8 * block_size)
  let inode_table_size : Nat := (total_inodes * 128 + block_size - 1) / block_size
  let inode_bitmap_start := superblock_size
  let block_bitmap_start := inode_bitmap_start + inode_bitmap_size
  let inode_table_start := block_bitmap_start + block_bitmap_size
  let data_block_start := inode_table_start + inode_table_size
  { fs_type := "MiNiFS"
    block_size := block_size
    total_blocks := total_blocks
    free_blocks := total_blocks
    data_block_start := data_block_start
    total_inodes := total_inodes
    free_inode := total_inodes
    inode_table_start := inode_table_start
    inode_bitmap_start := inode_bitmap_start
    block_bitmap_start := block_bitmap_start
    mounted := false
    dirty := false
    magic := 0xDEADBEEF }

/-! ## bincode 1.x encoding

The repository serializes with `bincode` (default options): integers are
fixed-width little-endian, `usize` is 8 bytes, strings are a u64 byte
length followed by UTF-8 bytes, enums are a u32 variant index, `Option` is
a one-byte tag (0 = None, 1 = Some) followed by the payload, `Vec` is a u64
count followed by the elements, and fixed-size arrays are the elements with
no prefix.  `bincode::deserialize` ignores trailing bytes. -/

def u64le (n : Nat) : List Nat := (List.range 8).map (fun i => n / 2 ^ (8 * i) % 256)

def u32le (n : Nat) : List Nat := (List.range 4).map (fun i => n / 2 ^ (8 * i) % 256)

def u16le (n : Nat) : List Nat := (List.range 2).map (fun i => n / 2 ^ (8 * i) % 256)

/-- Value of a little-endian byte list. -/
def leVal : List Nat → Nat
  | [] => 0
  | b :: rest => b + 256 * leVal rest

/-- Split off exactly `n` bytes, or fail. -/
def takeExact : Nat → List Nat → Option (List Nat × List Nat)
  | 0, rest => some ([], rest)
  | _ + 1, [] => none
  | n + 1, b :: rest => (takeExact n rest).map (fun p => (b :: p.1, p.2))

def readUInt (width : Nat) (bytes : List Nat) : Option (Nat × List Nat) :=
  (takeExact width bytes).map (fun p => (leVal p.1, p.2))

def encBool (b : Bool) : List Nat := [if b then 1 else 0]

def readBool (bytes : List Nat) : Option (Bool × List Nat) :=
  match bytes with
  | 0 :: rest => some (false, rest)
  | 1 :: rest => some (true, rest)
  | _ => none

/-- UTF-8 encoding of one code point. -/
def utf8EncodeCodepoint (c : Nat) : List Nat :=
  if c < 0x80 then [c]
  else if c < 0x800 then [0xC0 + c / 64, 0x80 + c % 64]
  else if c < 0x10000 then [0xE0 + c / 4096, 0x80 + c / 64 % 64, 0x80 + c % 64]
  else [0xF0 + c / 262144, 0x80 + c / 4096 % 64, 0x80 + c / 64 % 64, 0x80 + c % 64]

def strBytes (s : String) : List Nat :=
  (s.data.map (fun c => utf8EncodeCodepoint c.toNat)).flatten

/-- UTF-8 decoding with the validity checks Rust's `String` performs
(continuation bytes, no overlong forms, no surrogates, max 0x10FFFF). -/
def utf8Decode : List Nat → Option (List Char)
  | [] => some []
  | b :: rest =>
    if b < 0x80 then (utf8Decode rest).map (fun cs => Char.ofNat b :: cs)
    else if b < 0xC2 then none
    else if b < 0xE0 then
      match rest with
      | b1 :: rest2 =>
        if b1 / 64 = 2 then
          (utf8Decode rest2).map (fun cs => Char.ofNat ((b - 0xC0) * 64 + (b1 - 0x80)) :: cs)
        else none
      | [] => none
    else if b < 0xF0 then
      match rest with
      | b1 :: b2 :: rest2 =>
        if b1 / 64 = 2 ∧ b2 / 64 = 2 then
          let c := (b - 0xE0) * 4096 + (b1 - 0x80) * 64 + (b2 - 0x80)
          if 0x800 ≤ c ∧ ¬(0xD800 ≤ c ∧ c < 0xE000) then
            (utf8Decode rest2).map (fun cs => Char.ofNat c :: cs)
          else none
        else none
      | _ => none
    else if b < 0xF5 then
      match rest with
      | b1 :: b2 :: b3 :: rest2 =>
        if b1 / 64 = 2 ∧ b2 / 64 = 2 ∧ b3 / 64 = 2 then
          let c := (b - 0xF0) * 262144 + (b1 - 0x80) * 4096 + (b2 - 0x80) * 64 + (b3 - 0x80)
          if 0x10000 ≤ c ∧ c ≤ 0x10FFFF then
            (utf8Decode rest2).map (fun cs => Char.ofNat c :: cs)
          else none
        else none
      | _ => none
    else none

def encString (s : String) : List Nat := u64le (strBytes s).length ++ strBytes s

def readString (bytes : List Nat) : Option (String × List Nat) := do
  let (len, r1) ← readUInt 8 bytes
  let (sb, r2) ← takeExact len r1
  let cs ← utf8Decode sb
  some (String.mk cs, r2)

/-- Decode `n` consecutive elements. -/
def readVec {α : Type} (rd : List Nat → Option (α × List Nat)) :
    Nat → List Nat → Option (List α × List Nat)
  | 0, rest => some ([], rest)
  | n + 1, bytes => do
    let (a, r1) ← rd bytes
    let (as2, r2) ← readVec rd n r1
    some (a :: as2, r2)

def readOptionU64 (bytes : List Nat) : Option (Option Nat × List Nat) :=
  match bytes with
  | 0 :: rest => some (none, rest)
  | 1 :: rest => (readUInt 8 rest).map (fun p => (some p.1, p.2))
  | _ => none

/-! ## Directory (fs/directory.rs)

The in-memory `HashMap<String, usize>` from names to entry positions is
modelled as an association list with insert-replacing-existing-binding
semantics; it is `#[serde(skip)]`, so serialization omits it and
deserialization yields an empty map. -/

inductive DirEntryType where
  | File
  | Directory
deriving DecidableEq

structure DirEntry where
  name : String
  inode_index : Nat
  entry_type : DirEntryType
deriving DecidableEq

structure Directory where
  inode_index : Nat
  entries : List DirEntry
  index_map : List (String × Nat)
deriving DecidableEq

def mapContains (m : List (String × Nat)) (k : String) : Bool :=
  m.any (fun p => p.1 = k)

def mapGet (m : List (String × Nat)) (k : String) : Option Nat :=
  (m.find? (fun p => p.1 = k)).map (fun p => p.2)

def mapInsert (m : List (String × Nat)) (k : String) (v : Nat) : List (String × Nat) :=
  if mapContains m k then m.map (fun p => if p.1 = k then (k, v) else p) else m ++ [(k, v)]

def Directory.new (inode_index : Nat) : Directory :=
  { inode_index := inode_index, entries := [], index_map := [] }

def Directory.rebuild_index_map (d : Directory) : Directory :=
  { d with index_map := d.entries.enum.foldl (fun m p => mapInsert m p.2.name p.1) [] }

/-- `Directory::add`: reject when `name` is already a key of the in-memory
`index_map` (note: of the map, not of the entry vector), else append. -/
def Directory.add (d : Directory) (inode_index : Nat) (name : String)
    (entry_type : DirEntryType) : Except String Directory :=
  if mapContains d.index_map name then .error ("Entry already exists: " ++ name)
  else
    let entries2 := d.entries ++ [{ name := name, inode_index := inode_index,
                                    entry_type := entry_type }]
    .ok { d with entries := entries2, index_map := mapInsert d.index_map name (entries2.length - 1) }

/-- `Directory::remove`: look the position up in the map, remove from the
vector, rebuild the map, return the removed entry's inode index.  (With a
stale map the Rust vector removal can panic; every call site below rebuilds
the map first.) -/
def Directory.remove (d : Directory) (name : String) : Option (Directory × Nat) :=
  match mapGet d.index_map name with
  | some idx =>
    match d.entries.get? idx with
    | some entry =>
      some (Directory.rebuild_index_map { d with entries := d.entries.eraseIdx idx },
            entry.inode_index)
    | none => none
  | none => none

/-- `Directory::find`: map lookup, then read the entry at that position
(Rust indexes the vector directly and would panic on a stale map). -/
def Directory.find (d : Directory) (name : String) : Option Nat :=
  (mapGet d.index_map name).map (fun idx =>
    (d.entries.getD idx { name := "", inode_index := 0, entry_type := .File }).inode_index)

def encDirEntryType : DirEntryType → List Nat
  | .File => u32le 0
  | .Directory => u32le 1

def encDirEntry (e : DirEntry) : List Nat :=
  encString e.name ++ u64le e.inode_index ++ encDirEntryType e.entry_type

/-- `bincode::serialize::<Directory>` (the `index_map` is skipped). -/
def serializeDirectory (d : Directory) : List Nat :=
  u64le d.inode_index ++ u64le d.entries.length ++ (d.entries.map encDirEntry).flatten

def readDirEntryType (bytes : List Nat) : Option (DirEntryType × List Nat) := do
  let (v, rest) ← readUInt 4 bytes
  match v with
  | 0 => some (.File, rest)
  | 1 => some (.Directory, rest)
  | _ => none

def readDirEntry (bytes : List Nat) : Option (DirEntry × List Nat) := do
  let (name, r1) ← readString bytes
  let (idx, r2) ← readUInt 8 r1
  let (t, r3) ← readDirEntryType r2
  some ({ name := name, inode_index := idx, entry_type := t }, r3)

def parseDirectory (bytes : List Nat) : Option (Directory × List Nat) := do
  let (ii, r1) ← readUInt 8 bytes
  let (n, r2) ← readUInt 8 r1
  let (es, r3) ← readVec readDirEntry n r2
  some ({ inode_index := ii, entries := es, index_map := [] }, r3)

/-- `bincode::deserialize::<Directory>`: trailing bytes are ignored, the
serde-skipped `index_map` comes back empty. -/
def deserializeDirectory (bytes : List Nat) : Option Directory :=
  (parseDirectory bytes).map (fun p => p.1)

/-- `Directory::load_from_bytes`: deserialize, then rebuild the map. -/
def Directory.load_from_bytes (bytes : List Nat) : Option Directory :=
  (deserializeDirectory bytes).map Directory.rebuild_index_map

/-! ## Inode / superblock decoding (for `InodeTable::load` and `mount`) -/

def readInodeType (bytes : List Nat) : Option (InodeType × List Nat) := do
  let (v, rest) ← readUInt 4 bytes
  match v with
  | 0 => some (.File, rest)
  | 1 => some (.Directory, rest)
  | 2 => some (.Symlink, rest)
  | _ => none

/-- First group of `Inode` fields: id, type, size, permissions. -/
def readInodeHead (bytes : List Nat) :
    Option ((String × InodeType × Nat × Nat) × List Nat) :=
  (readString bytes).bind fun pid =>
  (readInodeType pid.2).bind fun pt =>
  (readUInt 8 pt.2).bind fun psize =>
  (readUInt 2 psize.2).bind fun pperm =>
  some ((pid.1, pt.1, psize.1, pperm.1), pperm.2)

/-- Second group: uid, gid, link_count, atime, mtime, ctime. -/
def readInodeMid (bytes : List Nat) :
    Option ((Nat × Nat × Nat × Nat × Nat × Nat) × List Nat) :=
  (readUInt 4 bytes).bind fun puid =>
  (readUInt 4 puid.2).bind fun pgid =>
  (readUInt 4 pgid.2).bind fun plc =>
  (readUInt 8 plc.2).bind fun pat =>
  (readUInt 8 pat.2).bind fun pmt =>
  (readUInt 8 pmt.2).bind fun pct =>
  some ((puid.1, pgid.1, plc.1, pat.1, pmt.1, pct.1), pct.2)

/-- Third group: the 12 direct pointers and both `Option<u64>` fields. -/
def readInodeTail (bytes : List Nat) :
    Option ((List Nat × Option Nat × Option Nat) × List Nat) :=
  (readVec (readUInt 8) 12 bytes).bind fun pdb =>
  (readOptionU64 pdb.2).bind fun pib =>
  (readOptionU64 pib.2).bind fun pdib =>
  some ((pdb.1, pib.1, pdib.1), pdib.2)

def readInode (bytes : List Nat) : Option (Inode × List Nat) :=
  (readInodeHead bytes).bind fun ph =>
  (readInodeMid ph.2).bind fun pm =>
  (readInodeTail pm.2).bind fun pt =>
  some ({ id := ph.1.1, inode_type := ph.1.2.1, size := ph.1.2.2.1,
          permissions := ph.1.2.2.2, uid := pm.1.1, gid := pm.1.2.1,
          link_count := pm.1.2.2.1, atime := pm.1.2.2.2.1, mtime := pm.1.2.2.2.2.1,
          ctime := pm.1.2.2.2.2.2, direct_blocks := pt.1.1,
          indirect_block := pt.1.2.1, double_indirect_block := pt.1.2.2 }, pt.2)

/-- `bincode::deserialize::<Vec<Inode>>` (trailing bytes ignored). -/
def deserializeInodeVec (bytes : List Nat) : Option (List Inode) := do
  let (n, r1) ← readUInt 8 bytes
  let (is2, _) ← readVec readInode n r1
  some is2

def encBoolList (b : Bool) : List Nat := encBool b

def serializeSuperBlock (sb : SuperBlock) : List Nat :=
  encString sb.fs_type ++ u64le sb.block_size ++ u64le sb.total_blocks ++
  u64le sb.free_blocks ++ u64le sb.data_block_start ++ u64le sb.total_inodes ++
  u64le sb.free_inode ++ u64le sb.inode_table_start ++ u64le sb.inode_bitmap_start ++
  u64le sb.block_bitmap_start ++ encBool sb.mounted ++ encBool sb.dirty ++ u64le sb.magic

/-- `SuperBlock` fields 1-5: fs_type, block_size, total_blocks, free_blocks,
data_block_start. -/
def parseSBHead (bytes : List Nat) :
    Option ((String × Nat × Nat × Nat × Nat) × List Nat) :=
  (readString bytes).bind fun pfs =>
  (readUInt 8 pfs.2).bind fun pbs =>
  (readUInt 8 pbs.2).bind fun ptb =>
  (readUInt 8 ptb.2).bind fun pfb =>
  (readUInt 8 pfb.2).bind fun pdbs =>
  some ((pfs.1, pbs.1, ptb.1, pfb.1, pdbs.1), pdbs.2)

/-- `SuperBlock` fields 6-10: total_inodes, free_inode, inode_table_start,
inode_bitmap_start, block_bitmap_start. -/
def parseSBMid (bytes : List Nat) :
    Option ((Nat × Nat × Nat × Nat × Nat) × List Nat) :=
  (readUInt 8 bytes).bind fun pti =>
  (readUInt 8 pti.2).bind fun pfi =>
  (readUInt 8 pfi.2).bind fun pits =>
  (readUInt 8 pits.2).bind fun pibs =>
  (readUInt 8 pibs.2).bind fun pbbs =>
  some ((pti.1, pfi.1, pits.1, pibs.1, pbbs.1), pbbs.2)

/-- `SuperBlock` fields 11-13: mounted, dirty, magic. -/
def parseSBTail (bytes : List Nat) : Option ((Bool × Bool × Nat) × List Nat) :=
  (readBool bytes).bind fun pmo =>
  (readBool pmo.2).bind fun pdi =>
  (readUInt 8 pdi.2).bind fun pmg =>
  some ((pmo.1, pdi.1, pmg.1), pmg.2)

def parseSuperBlock (bytes : List Nat) : Option (SuperBlock × List Nat) :=
  (parseSBHead bytes).bind fun ph =>
  (parseSBMid ph.2).bind fun pm =>
  (parseSBTail pm.2).bind fun pt =>
  some ({ fs_type := ph.1.1, block_size := ph.1.2.1, total_blocks := ph.1.2.2.1,
          free_blocks := ph.1.2.2.2.1, data_block_start := ph.1.2.2.2.2,
          total_inodes := pm.1.1, free_inode := pm.1.2.1, inode_table_start := pm.1.2.2.1,
          inode_bitmap_start := pm.1.2.2.2.1, block_bitmap_start := pm.1.2.2.2.2,
          mounted := pt.1.1, dirty := pt.1.2.1, magic := pt.1.2.2 }, pt.2)

def deserializeSuperBlock (bytes : List Nat) : Option SuperBlock :=
  (parseSuperBlock bytes).map (fun p => p.1)

/-- `InodeTable::load`: read the first table block, take the 8-byte
little-endian length prefix, gather that many bytes across blocks,
deserialize the inode vector; `total_inodes` is recomputed as the vector's
length. -/
def InodeTable.load (disk : FileDisk) (start_block : Nat) : Except String InodeTable := do
  let block0 ← disk.read_block start_block
  let serializedLen := leVal (block0.take 8)
  let totalBlocks := (serializedLen + 8 + 4095) / 4096
  let firstChunk := min (4096 - 8) serializedLen
  let mut bytes : List Nat := (block0.drop 8).take firstChunk
  let mut readCount := firstChunk
  for i in List.range (totalBlocks - 1) do
    let blk ← disk.read_block (start_block + 1 + i)
    let chunk := min 4096 (serializedLen - readCount)
    bytes := bytes ++ blk.take chunk
    readCount := readCount + chunk
  match deserializeInodeVec bytes with
  | some inodes =>
    .ok { inodes := inodes, start_block := start_block, total_inodes := inodes.length }
  | none => .error "deserialize inode table failed"

/-! ## File system controller (fs/mod.rs) -/

structure FileSystem where
  disk : FileDisk
  super_block : SuperBlock
  inode_bitmap : InodeBitmap
  data_bitmap : DataBlockBitmap
  inode_table : InodeTable
  data_area : DataArea

/-- `FileSystem::new(disk)`: in-memory structures for the default geometry
(`SuperBlock::new(4096)`). -/
def FileSystem.new (disk : FileDisk) : FileSystem :=
  let super_block := SuperBlock.new 4096
  { disk := disk
    super_block := super_block
    inode_bitmap := InodeBitmap.new super_block.total_inodes super_block.inode_bitmap_start
    data_bitmap := DataBlockBitmap.new (super_block.total_blocks - super_block.data_block_start)
                     super_block.block_bitmap_start
    inode_table := InodeTable.new super_block.inode_table_start super_block.total_inodes
    data_area := DataArea.new super_block.data_block_start
                   (super_block.total_blocks - super_block.data_block_start) }

/-- `mount()`: read block 0, decode it into the superblock (no check of the
`magic` field is performed), then load the inode bitmap, the data bitmap,
the inode table and the data area, and set `mounted`. -/
def FileSystem.mount (fs : FileSystem) : Except String FileSystem :=
  match fs.disk.read_block 0 with
  | .error e => .error e
  | .ok block_buf =>
    match deserializeSuperBlock block_buf with
    | none => .error "deserialize superblock failed"
    | some sb =>
      match InodeBitmap.load fs.disk sb.inode_bitmap_start sb.total_inodes with
      | .error e => .error e
      | .ok ibm =>
        match DataBlockBitmap.load fs.disk sb.block_bitmap_start
                (sb.total_blocks - sb.data_block_start) with
        | .error e => .error e
        | .ok dbm =>
          match InodeTable.load fs.disk sb.inode_table_start with
          | .error e => .error e
          | .ok it =>
            match fs.data_area.load fs.disk with
            | .error e => .error e
            | .ok da =>
              .ok { fs with
                    super_block := { sb with mounted := true },
                    inode_bitmap := ibm,
                    data_bitmap := dbm,
                    inode_table := it,
                    data_area := da }

/-- `str::trim`: strip whitespace from both ends (kernel-reducible model
of the library routine). -/
def rustTrim (s : String) : String :=
  String.mk (((s.data.dropWhile Char.isWhitespace).reverse.dropWhile Char.isWhitespace).reverse)

/-- `str::split(sep)`: split into (possibly empty) segments. -/
def splitChars (sep : Char) : List Char → List Char → List String
  | [], acc => [String.mk acc.reverse]
  | c :: rest, acc =>
    if c = sep then String.mk acc.reverse :: splitChars sep rest []
    else splitChars sep rest (c :: acc)

/-- Byte-lexicographic string comparison (`Ord` on Rust `str`; on UTF-8,
byte order coincides with code-point order). -/
def charListLe : List Char → List Char → Bool
  | [], _ => true
  | _ :: _, [] => false
  | a :: as2, b :: bs2 =>
    if a.toNat < b.toNat then true
    else if b.toNat < a.toNat then false
    else charListLe as2 bs2

/-- One step of `find_inode`'s loop: resolve `component` inside the
directory inode `cur`. -/
def resolveComponent (fs : FileSystem) (cur : Nat) (component : String) : Except String Nat :=
  match fs.inode_table.get_inode cur with
  | none => .error "Inode not found"
  | some ino =>
    if ino.inode_type ≠ .Directory then .error "Path component is not a directory"
    else
      let block_id := ino.direct_blocks.getD 0 0
      if block_id = 0 then .error "Directory has no data block"
      else
        match fs.data_area.read_block block_id with
        | none => .error "Failed to read directory block"
        | some block_data =>
          match Directory.load_from_bytes block_data with
          | none => .error "Failed to deserialize directory"
          | some dir =>
            match dir.find component with
            | some inode_index => .ok inode_index
            | none => .error ("Path component not found: " ++ component)

def resolvePath (fs : FileSystem) : List String → Nat → Except String Nat
  | [], cur => .ok cur
  | c :: rest, cur =>
    match resolveComponent fs cur c with
    | .ok nxt => resolvePath fs rest nxt
    | .error e => .error e

/-- `find_inode(path)`: `/` is inode 0; otherwise strip leading slashes,
trim, split on `/` dropping empty segments, and walk from inode 0. -/
def FileSystem.find_inode (fs : FileSystem) (path : String) : Except String Nat :=
  if path = "/" then .ok 0
  else
    let normalized := rustTrim (String.mk (path.data.dropWhile (fun ch => ch = '/')))
    if normalized = "" then .ok 0
    else resolvePath fs ((splitChars '/' normalized.data []).filter (fun s => s ≠ "")) 0

/-- `add_directory_entry`: read the parent's directory block, deserialize
it (note: `rebuild_index_map` is *not* called, so the freshly deserialized
`index_map` is empty), `Directory::add` the entry, write back, update the
parent inode's size and timestamps. -/
def FileSystem.add_directory_entry (fs : FileSystem) (parent_path name : String)
    (inode_id : Nat) (entry_type : DirEntryType) : Except String FileSystem :=
  match fs.find_inode parent_path with
  | .error e => .error e
  | .ok parent_inode_id =>
    match fs.inode_table.get_inode parent_inode_id with
    | none => .error "Parent inode not found"
    | some parent_inode =>
      let block_id := parent_inode.direct_blocks.getD 0 0
      if block_id = 0 then
        .error ("Parent directory has no data block. path=" ++ parent_path)
      else
        match fs.data_area.read_block block_id with
        | none => .error "Failed to read directory block"
        | some block_data =>
          match deserializeDirectory block_data with
          | none => .error "Failed to deserialize directory"
          | some parent_dir =>
            match parent_dir.add inode_id name entry_type with
            | .error e => .error e
            | .ok parent_dir2 =>
              let dir_bytes := serializeDirectory parent_dir2
              match fs.data_area.write_block block_id dir_bytes with
              | .error e => .error ("panic: " ++ e)
              | .ok da2 =>
                let pi2 := Inode.touch { parent_inode with size := dir_bytes.length }
                .ok { fs with
                      data_area := da2,
                      inode_table := { fs.inode_table with
                        inodes := fs.inode_table.inodes.set parent_inode_id pi2 } }

/-- Tail of `create_dir`: hook the data block into the new inode, add the
parent entry, update the superblock counters. -/
def createDirAttach (fs : FileSystem) (parent_path name : String)
    (inode_id block_id size : Nat) : Except String (FileSystem × Nat) :=
  match fs.inode_table.get_inode inode_id with
  | none => .error "panic: unwrap on None"
  | some ino =>
    match ino.add_block block_id with
    | .error e => .error ("panic: " ++ e)
    | .ok ino2 =>
      let ino3 := Inode.touch { ino2 with size := size }
      let fs4 := { fs with inode_table := { fs.inode_table with
                     inodes := fs.inode_table.inodes.set inode_id ino3 } }
      match fs4.add_directory_entry parent_path name inode_id .Directory with
      | .error e => .error e
      | .ok fs5 =>
        .ok ({ fs5 with super_block := { fs5.super_block with
                 free_inode := wsub64 fs5.super_block.free_inode 1, dirty := true } },
             inode_id)

/-- `create_dir` after the new inode has been allocated: build the `.`/`..`
directory, allocate and write its data block, attach it to the inode. -/
def createDirWithInode (fs : FileSystem) (parent_path name : String) (inode_id : Nat) :
    Except String (FileSystem × Nat) :=
  match (Directory.new inode_id).add inode_id "." .Directory with
  | .error e => .error ("panic: " ++ e)
  | .ok d1 =>
    match d1.add inode_id ".." .Directory with
    | .error e => .error ("panic: " ++ e)
    | .ok new_dir =>
      let dir_bytes := serializeDirectory new_dir
      match fs.data_bitmap.alloc with
      | none => .error "Failed to allocate data block"
      | some (dbm2, block_id) =>
        let fs2 := { fs with
                     data_bitmap := dbm2,
                     super_block := { fs.super_block with
                       free_blocks := wsub64 fs.super_block.free_blocks 1 } }
        match fs2.data_area.write_block block_id dir_bytes with
        | .error e => .error ("panic: " ++ e)
        | .ok da2 => createDirAttach { fs2 with data_area := da2 }
                       parent_path name inode_id block_id dir_bytes.length

/-- `create_dir(parent_path, name)`: resolve the parent, allocate a
Directory inode (perm 0o755), then `createDirWithInode`. -/
def FileSystem.create_dir (fs : FileSystem) (parent_path name : String) :
    Except String (FileSystem × Nat) :=
  match fs.find_inode parent_path with
  | .error e => .error e
  | .ok parent_inode_id =>
    match fs.inode_table.get_inode parent_inode_id with
    | none => .error "Parent inode not found"
    | some _ =>
      match fs.inode_table.alloc_inode fs.inode_bitmap .Directory 0 0 0o755 with
      | .error e => .error e
      | .ok none => .error "Failed to allocate inode"
      | .ok (some (it2, ibm2, inode_id)) =>
        createDirWithInode { fs with inode_table := it2, inode_bitmap := ibm2 }
          parent_path name inode_id

/-- `list_dir`'s block loop: stop at the first zero pointer; a block the
data area cannot read is silently skipped (`if let Some`); a block that
fails to deserialize is an error. -/
def listDirBlocks (fs : FileSystem) : List Nat → List DirEntry → Except String (List DirEntry)
  | [], acc => .ok acc
  | block_id :: rest, acc =>
    if block_id = 0 then .ok acc
    else
      match fs.data_area.read_block block_id with
      | none => listDirBlocks fs rest acc
      | some block_data =>
        match deserializeDirectory block_data with
        | none => .error "Corrupted directory block"
        | some dir => listDirBlocks fs rest (acc ++ (dir.rebuild_index_map).entries)

/-- `list_dir`'s comparator: directories before files, then by name
(`a` does not come strictly after `b`). -/
def dirEntryLe (a b : DirEntry) : Bool :=
  match a.entry_type, b.entry_type with
  | .Directory, .File => true
  | .File, .Directory => false
  | _, _ => charListLe a.name.data b.name.data

/-- Stable sort by `dirEntryLe` (insertion sort; Rust's `sort_by` is a
stable sort, and for a total preorder any two stable sorts agree). -/
def insertSorted (a : DirEntry) : List DirEntry → List DirEntry
  | [] => [a]
  | b :: rest => if dirEntryLe b a then b :: insertSorted a rest else a :: b :: rest

def sortDirEntries (l : List DirEntry) : List DirEntry :=
  l.foldl (fun acc a => insertSorted a acc) []

def FileSystem.list_dir (fs : FileSystem) (path : String) : Except String (List DirEntry) :=
  match fs.find_inode path with
  | .error e => .error e
  | .ok inode_id =>
    match fs.inode_table.get_inode inode_id with
    | none => .error "Inode not found"
    | some ino =>
      if ino.inode_type ≠ .Directory then .error "Not a directory"
      else
        match listDirBlocks fs ino.direct_blocks [] with
        | .error e => .error e
        | .ok result => .ok (sortDirEntries result)

/-- `remove_directory_entry`: like `add_directory_entry` but the map *is*
rebuilt before `Directory::remove`. -/
def FileSystem.remove_directory_entry (fs : FileSystem) (parent_path name : String) :
    Except String FileSystem :=
  match fs.find_inode parent_path with
  | .error e => .error e
  | .ok parent_inode_id =>
    match fs.inode_table.get_inode parent_inode_id with
    | none => .error "Parent inode not found"
    | some parent_inode =>
      let block_id := parent_inode.direct_blocks.getD 0 0
      if block_id = 0 then .error "Parent directory has no data block"
      else
        match fs.data_area.read_block block_id with
        | none => .error "Failed to read directory block"
        | some block_data =>
          match deserializeDirectory block_data with
          | none => .error "Failed to deserialize directory"
          | some parent_dir0 =>
            match (parent_dir0.rebuild_index_map).remove name with
            | none => .error "Entry not found in directory"
            | some (parent_dir2, _) =>
              let dir_bytes := serializeDirectory parent_dir2
              match fs.data_area.write_block block_id dir_bytes with
              | .error e => .error e
              | .ok da2 =>
                let pi2 := Inode.touch { parent_inode with size := dir_bytes.length }
                .ok { fs with
                      data_area := da2,
                      inode_table := { fs.inode_table with
                        inodes := fs.inode_table.inodes.set parent_inode_id pi2 } }

/-- `delete_file`'s loop over `direct_blocks`: free every nonzero id in the
data bitmap. -/
def freeDirectBlocks : DataBlockBitmap → List Nat → Except String DataBlockBitmap
  | bm, [] => .ok bm
  | bm, block_id :: rest =>
    if block_id ≠ 0 then
      match bm.free block_id with
      | .error e => .error e
      | .ok bm2 => freeDirectBlocks bm2 rest
    else freeDirectBlocks bm rest

/-- `delete_file(path, name)`: free the file's data blocks in the bitmap
and clear its inode bit (note: via `inode_bitmap.free` only — the inode
table record is left untouched), remove the parent entry, bump
`free_inode`. -/
def FileSystem.delete_file (fs : FileSystem) (path name : String) : Except String FileSystem :=
  match fs.find_inode (path ++ "/" ++ name) with
  | .error e => .error e
  | .ok file_inode_id =>
    match fs.inode_table.get_inode file_inode_id with
    | none => .error "File inode not found"
    | some ino =>
      match freeDirectBlocks fs.data_bitmap ino.direct_blocks with
      | .error e => .error e
      | .ok dbm2 =>
        match fs.inode_bitmap.free file_inode_id with
        | .error e => .error e
        | .ok ibm2 =>
          match FileSystem.remove_directory_entry
                  { fs with data_bitmap := dbm2, inode_bitmap := ibm2 } path name with
          | .error e => .error e
          | .ok fs3 =>
            .ok { fs3 with super_block := { fs3.super_block with
                    free_inode := wadd64 fs3.super_block.free_inode 1, dirty := true } }

/-- `delete_dir(path, name)`: refuse when the directory holds more than the
`.` and `..` entries; free its single data block and its inode bit, remove
the parent entry, bump `free_inode` (note: `free_blocks` is *not*
incremented). -/
def FileSystem.delete_dir (fs : FileSystem) (path name : String) : Except String FileSystem :=
  match fs.find_inode (path ++ "/" ++ name) with
  | .error e => .error e
  | .ok dir_inode_id =>
    match fs.list_dir (path ++ "/" ++ name) with
    | .error e => .error e
    | .ok entries =>
      if entries.length > 2 then .error "Directory not empty"
      else
        match fs.inode_table.get_inode dir_inode_id with
        | none => .error "Directory inode not found"
        | some ino =>
          match (if ino.direct_blocks.getD 0 0 ≠ 0 then
                   fs.data_bitmap.free (ino.direct_blocks.getD 0 0)
                 else .ok fs.data_bitmap) with
          | .error e => .error e
          | .ok dbm2 =>
            match fs.inode_bitmap.free dir_inode_id with
            | .error e => .error e
            | .ok ibm2 =>
              match FileSystem.remove_directory_entry
                      { fs with data_bitmap := dbm2, inode_bitmap := ibm2 } path name with
              | .error e => .error e
              | .ok fs3 =>
                .ok { fs3 with super_block := { fs3.super_block with
                        free_inode := wadd64 fs3.super_block.free_inode 1, dirty := true } }

/-- `free_file_blocks`'s loop over `direct_blocks`: free each nonzero
pointer in the bitmap, zero it in the inode, and count how many were
freed. -/
def freeFileDirect : DataBlockBitmap → List Nat → Except String (DataBlockBitmap × List Nat × Nat)
  | bm, [] => .ok (bm, [], 0)
  | bm, b :: rest =>
    if b ≠ 0 then
      match bm.free b with
      | .error e => .error e
      | .ok bm2 =>
        match freeFileDirect bm2 rest with
        | .error e => .error e
        | .ok (bm3, rest2, n) => .ok (bm3, 0 :: rest2, n + 1)
    else
      match freeFileDirect bm rest with
      | .error e => .error e
      | .ok (bm3, rest2, n) => .ok (bm3, b :: rest2, n)

/-- `free_file_blocks(inode_id)`: release every direct / indirect /
double-indirect block into the data bitmap, zero the pointers and the
size, and add the freed count to `super_block.free_blocks`. -/
def FileSystem.free_file_blocks (fs : FileSystem) (inode_id : Nat) : Except String FileSystem :=
  match fs.inode_table.get_inode inode_id with
  | none => .error "Inode not found"
  | some ino =>
    match freeFileDirect fs.data_bitmap ino.direct_blocks with
    | .error e => .error e
    | .ok (dbm2, direct2, freed1) =>
      match (match ino.indirect_block with
             | some bid => (dbm2.free bid).map (fun b => (b, 1))
             | none => .ok (dbm2, 0)) with
      | .error e => .error e
      | .ok (dbm3, freed2) =>
        match (match ino.double_indirect_block with
               | some bid => (dbm3.free bid).map (fun b => (b, 1))
               | none => .ok (dbm3, 0)) with
        | .error e => .error e
        | .ok (dbm4, freed3) =>
          let ino2 := { ino with
                        direct_blocks := direct2, indirect_block := none,
                        double_indirect_block := none, size := 0 }
          .ok { fs with
                data_bitmap := dbm4,
                inode_table := { fs.inode_table with
                  inodes := fs.inode_table.inodes.set inode_id ino2 },
                super_block := { fs.super_block with
                  free_blocks := wadd64 fs.super_block.free_blocks (freed1 + freed2 + freed3),
                  dirty := true } }

/-- `write_file`'s `if let Some(inode) = get_inode_mut` block: attach the
new block, set the size and mtime.  A missing inode is silently skipped. -/
def writeFileAttach (fs : FileSystem) (inode_id block_id len : Nat) :
    Except String FileSystem :=
  match fs.inode_table.get_inode inode_id with
  | none => .ok fs
  | some ino =>
    match ino.add_block block_id with
    | .error e => .error e
    | .ok ino2 =>
      .ok { fs with inode_table := { fs.inode_table with
              inodes := fs.inode_table.inodes.set inode_id
                { ino2 with size := len, mtime := current_timestamp } } }

/-- `write_file(path, content)`: resolve the inode, free its old blocks,
then (for nonempty content) allocate one data block, write the content
into the data area, attach it to the inode, and decrement `free_blocks` by
the number of blocks used. -/
def FileSystem.write_file (fs : FileSystem) (path : String) (content : List Nat) :
    Except String FileSystem :=
  match fs.find_inode path with
  | .error e => .error e
  | .ok inode_id =>
    match fs.free_file_blocks inode_id with
    | .error e => .error e
    | .ok fs1 =>
      if content.isEmpty then
        .ok { fs1 with super_block := { fs1.super_block with
                free_blocks := wsub64 fs1.super_block.free_blocks 0, dirty := true } }
      else
        match fs1.data_bitmap.alloc with
        | none => .error "No free data blocks"
        | some (dbm2, block_id) =>
          let fs2 := { fs1 with data_bitmap := dbm2 }
          match fs2.data_area.write_block block_id content with
          | .error e => .error e
          | .ok da2 =>
            match writeFileAttach { fs2 with data_area := da2 } inode_id block_id
                    content.length with
            | .error e => .error e
            | .ok fs4 =>
              .ok { fs4 with super_block := { fs4.super_block with
                      free_blocks := wsub64 fs4.super_block.free_blocks 1, dirty := true } }

/-- `read_file(path, name)`: resolve the full path, read the inode's first
direct block if nonzero and return its first `size` bytes (no check that
the inode is a File is performed). -/
def FileSystem.read_file (fs : FileSystem) (path name : String) :
    Except String (List Nat) :=
  match fs.find_inode (path ++ "/" ++ name) with
  | .error e => .error e
  | .ok file_inode_id =>
    match fs.inode_table.get_inode file_inode_id with
    | none => .error "File inode not found"
    | some ino =>
      let block_id := ino.direct_blocks.getD 0 0
      if block_id ≠ 0 then
        match fs.data_area.read_block block_id with
        | some data =>
          -- Rust `data[..size]` panics when `size > data.len()`; the slice
          -- has `size` elements exactly when `size ≤ data.len()`.
          if (data.take ino.size).length = ino.size then .ok (data.take ino.size)
          else .error "panic: slice end index out of range"
        | none => .ok []
      else .ok []

/-! ## Concrete states

Small well-formed in-memory states, of the exact shape `mount` produces
(the in-memory structures are what the claims quantify over; the public
operations never touch the disk).  The geometry is deliberately small: the
superblock describes 8 inode slots and 8 data-area blocks; the claims'
statements are about the operations, whose code is geometry-independent. -/

/-- Data-area slot contents holding the given byte lists at the given
slots, zero-padded (as `write_block` stores them), zero blocks elsewhere. -/
def slotsList (slots : List (Nat × List Nat)) (total : Nat) : List (List Nat) :=
  (List.range total).map (fun i =>
    match slots.find? (fun p => p.1 = i) with
    | some p => p.2 ++ List.replicate (4096 - p.2.length) 0
    | none => List.replicate 4096 0)

/-- A disk that is never read by the in-memory operations. -/
def tinyDisk : FileDisk := { totalBlocks := 0, data := fun _ => [] }

/-- Root inode: a Directory whose directory block lives at data-area slot 1. -/
def rootInode (size : Nat) : Inode :=
  { id := generate_uuid, inode_type := .Directory, size := size, permissions := 0o755,
    uid := 0, gid := 0, link_count := 2, atime := 0, mtime := 0, ctime := 0,
    direct_blocks := [1, 0, 0, 0, 0, 0, 0, 0, 0, 0, 0, 0], indirect_block := none,
    double_indirect_block := none }

def dirEntryD (n : String) (i : Nat) : DirEntry :=
  { name := n, inode_index := i, entry_type := .Directory }

def dirEntryF (n : String) (i : Nat) : DirEntry :=
  { name := n, inode_index := i, entry_type := .File }

def tinySuperBlock (freeBlocks freeInode : Nat) : SuperBlock :=
  { fs_type := "MiNiFS", block_size := 4096, total_blocks := 13, free_blocks := freeBlocks,
    data_block_start := 5, total_inodes := 8, free_inode := freeInode,
    inode_table_start := 3, inode_bitmap_start := 1, block_bitmap_start := 2,
    mounted := true, dirty := false, magic := 0xDEADBEEF }

/-- State for C2: root (inode 0, block 1) holds `.`, `..` and file `f`
(inode 2, no data blocks yet); data bitmap marks only block 0 used, so the
next allocation returns block id 1 — the root directory's own slot. -/
def rootDirOnlyF : Directory :=
  { inode_index := 0,
    entries := [dirEntryD "." 0, dirEntryD ".." 0, dirEntryF "f" 2], index_map := [] }

def cexFS2 : FileSystem :=
  { disk := tinyDisk
    super_block := tinySuperBlock 7 6
    inode_bitmap := { bits := [5], total_inodes := 8, free_inodes := 6, start_block := 1 }
    data_bitmap := { bits := [1], total_blocks := 8, free_blocks := 7, start_block := 2 }
    inode_table := { inodes := [rootInode (serializeDirectory rootDirOnlyF).length,
                                Inode.empty, Inode.new .File 0 0 0o644, Inode.empty]
                     start_block := 3, total_inodes := 8 }
    data_area := { blocks := slotsList [(1, serializeDirectory rootDirOnlyF)] 8
                   total_blocks := 8, start_block := 5
                   dirty := List.replicate 8 false } }

/-- State for the write/read witness: same as `cexFS2` except that data
blocks 0 and 1 are marked used, so the next allocation returns block 2 and
leaves the root directory intact. -/
def cexW2 : FileSystem :=
  { cexFS2 with
    data_bitmap := { bits := [3], total_blocks := 8, free_blocks := 6, start_block := 2 } }

/-- State for C4: root (inode 0, block 1) holds only `.` and `..`; inode 0
and data blocks 0, 1 are in use. -/
def rootDirEmpty : Directory :=
  { inode_index := 0, entries := [dirEntryD "." 0, dirEntryD ".." 0], index_map := [] }

def cexFS4 : FileSystem :=
  { disk := tinyDisk
    super_block := tinySuperBlock 6 7
    inode_bitmap := { bits := [1], total_inodes := 8, free_inodes := 7, start_block := 1 }
    data_bitmap := { bits := [3], total_blocks := 8, free_blocks := 6, start_block := 2 }
    inode_table := { inodes := [rootInode (serializeDirectory rootDirEmpty).length,
                                Inode.empty, Inode.empty, Inode.empty]
                     start_block := 3, total_inodes := 8 }
    data_area := { blocks := slotsList [(1, serializeDirectory rootDirEmpty)] 8
                   total_blocks := 8, start_block := 5
                   dirty := List.replicate 8 false } }

/-- State for C5: root already holds an entry named `a` (a subdirectory at
inode 1, data block 2). -/
def rootDirWithA : Directory :=
  { inode_index := 0,
    entries := [dirEntryD "." 0, dirEntryD ".." 0, dirEntryD "a" 1], index_map := [] }

def subDirA : Directory :=
  { inode_index := 1, entries := [dirEntryD "." 1, dirEntryD ".." 1], index_map := [] }

def subDirInode (slot size : Nat) : Inode :=
  { id := generate_uuid, inode_type := .Directory, size := size, permissions := 0o755,
    uid := 0, gid := 0, link_count := 2, atime := 0, mtime := 0, ctime := 0,
    direct_blocks := [slot, 0, 0, 0, 0, 0, 0, 0, 0, 0, 0, 0], indirect_block := none,
    double_indirect_block := none }

def cexFS5 : FileSystem :=
  { disk := tinyDisk
    super_block := tinySuperBlock 5 6
    inode_bitmap := { bits := [3], total_inodes := 8, free_inodes := 6, start_block := 1 }
    data_bitmap := { bits := [7], total_blocks := 8, free_blocks := 5, start_block := 2 }
    inode_table := { inodes := [rootInode (serializeDirectory rootDirWithA).length,
                                subDirInode 2 (serializeDirectory subDirA).length,
                                Inode.empty, Inode.empty]
                     start_block := 3, total_inodes := 8 }
    data_area := { blocks := slotsList [(1, serializeDirectory rootDirWithA),
                                        (2, serializeDirectory subDirA)] 8
                   total_blocks := 8, start_block := 5
                   dirty := List.replicate 8 false } }

/-- State for C6: root holds file `f` at inode 2 owning data block 3. -/
def cexFS6 : FileSystem :=
  { disk := tinyDisk
    super_block := tinySuperBlock 4 6
    inode_bitmap := { bits := [5], total_inodes := 8, free_inodes := 6, start_block := 1 }
    data_bitmap := { bits := [11], total_blocks := 8, free_blocks := 4, start_block := 2 }
    inode_table := { inodes := [rootInode (serializeDirectory rootDirOnlyF).length,
                                Inode.empty,
                                { Inode.new .File 0 0 0o644 with
                                  size := 5,
                                  direct_blocks := [3, 0, 0, 0, 0, 0, 0, 0, 0, 0, 0, 0] },
                                Inode.empty]
                     start_block := 3, total_inodes := 8 }
    data_area := { blocks := slotsList [(1, serializeDirectory rootDirOnlyF),
                                        (3, [104, 101, 108, 108, 111])] 8
                   total_blocks := 8, start_block := 5
                   dirty := List.replicate 8 false } }

/-- State for C8: root holds a subdirectory `d` at inode 1, data block 2. -/
def rootDirWithD : Directory :=
  { inode_index := 0,
    entries := [dirEntryD "." 0, dirEntryD ".." 0, dirEntryD "d" 1], index_map := [] }

def subDirD : Directory :=
  { inode_index := 1, entries := [dirEntryD "." 1, dirEntryD ".." 1], index_map := [] }

def cexFS8 : FileSystem :=
  { disk := tinyDisk
    super_block := tinySuperBlock 5 6
    inode_bitmap := { bits := [3], total_inodes := 8, free_inodes := 6, start_block := 1 }
    data_bitmap := { bits := [7], total_blocks := 8, free_blocks := 5, start_block := 2 }
    inode_table := { inodes := [rootInode (serializeDirectory rootDirWithD).length,
                                subDirInode 2 (serializeDirectory subDirD).length,
                                Inode.empty, Inode.empty]
                     start_block := 3, total_inodes := 8 }
    data_area := { blocks := slotsList [(1, serializeDirectory rootDirWithD),
                                        (2, serializeDirectory subDirD)] 8
                   total_blocks := 8, start_block := 5
                   dirty := List.replicate 8 false } }

/-- Pad a byte list to one 4096-byte block. -/
def pad4096 (l : List Nat) : List Nat := l ++ List.replicate (4096 - l.length) 0

/-- A superblock whose magic is 0 instead of 0xDEADBEEF, with a small but
self-consistent geometry. -/
def sbBadMagic : SuperBlock :=
  { fs_type := "MiNiFS", block_size := 4096, total_blocks := 139, free_blocks := 8,
    data_block_start := 131, total_inodes := 8, free_inode := 8, inode_table_start := 3,
    inode_bitmap_start := 1, block_bitmap_start := 2, mounted := false, dirty := false,
    magic := 0 }

/-- A disk image whose block 0 decodes to `sbBadMagic`, whose inode table
holds a valid length-prefixed empty vector, and whose remaining blocks are
zeroed. -/
def cexDisk7 : FileDisk :=
  { totalBlocks := 16384
    data := fun id =>
      if id = 0 then pad4096 (serializeSuperBlock sbBadMagic)
      else if id = 3 then pad4096 (u64le 8 ++ u64le 0)
      else List.replicate 4096 0 }

/-- A disk image whose block 0 does not decode as a superblock (the string
length prefix is followed by invalid UTF-8). -/
def cexDisk7bad : FileDisk :=
  { totalBlocks := 16384
    data := fun _ => pad4096 (u64le 20 ++ List.replicate 30 255) }

/-! ## Bitmap states reachable by `new` / `alloc` / `free` -/

/-- Data-block-bitmap states reachable from `new` by successful `alloc` and
`free` calls (a panicking `free` is not a step). -/
inductive DBReach : DataBlockBitmap → Prop where
  | new (total start : Nat) (h : total < 2 ^ 64) : DBReach (DataBlockBitmap.new total start)
  | alloc {bm bm2 : DataBlockBitmap} {idx : Nat} :
      DBReach bm → bm.alloc = some (bm2, idx) → DBReach bm2
  | free {bm bm2 : DataBlockBitmap} {i : Nat} :
      DBReach bm → bm.free i = .ok bm2 → DBReach bm2

/-- Inode-bitmap states reachable from `new` by successful `alloc` and
`free` calls. -/
inductive IBReach : InodeBitmap → Prop where
  | new (total start : Nat) (h : total < 2 ^ 64) : IBReach (InodeBitmap.new total start)
  | alloc {bm bm2 : InodeBitmap} {idx : Nat} :
      IBReach bm → bm.alloc = some (bm2, idx) → IBReach bm2
  | free {bm bm2 : InodeBitmap} {i : Nat} :
      IBReach bm → bm.free i = .ok bm2 → IBReach bm2

/-- Total number of set bits in a bitmap's byte vector. -/
def popcountBits (bits : List Nat) : Nat := (bits.map count_ones8).sum

/-- Representation invariant of data-block-bitmap states (byte vector of
the right length holding byte values, free counter tracking the popcount).
-/
def DBInv (bm : DataBlockBitmap) : Prop :=
  bm.bits.length = (bm.total_blocks + 7) / 8 ∧
  (∀ b ∈ bm.bits, b < 256) ∧
  popcountBits bm.bits ≤ bm.total_blocks ∧
  bm.free_blocks = bm.total_blocks - popcountBits bm.bits ∧
  bm.total_blocks < 2 ^ 64

/-- Representation invariant of inode-bitmap states. -/
def IBInv (bm : InodeBitmap) : Prop :=
  bm.bits.length = (bm.total_inodes + 7) / 8 ∧
  (∀ b ∈ bm.bits, b < 256) ∧
  popcountBits bm.bits ≤ bm.total_inodes ∧
  bm.free_inodes = bm.total_inodes - popcountBits bm.bits ∧
  bm.total_inodes < 2 ^ 64

/-! ## Claims -/

/-- Claim C1 (code bug): the claim says `InodeTable::new` produces a table
of exactly `N_I` zeroed sentinel records, so a bitmap-granted index always
has a slot.  The code refutes it: the vector starts empty (`Vec::new()`),
slot 0 does not exist, and `alloc_inode` panics on the very first
bitmap-granted index (as does `format`'s write of the root inode to slot
0). -/
theorem C1_inode_table_new_empty :
    (InodeTable.new 3 4096).inodes = [] ∧
    (InodeTable.new 3 4096).inodes.length ≠ 4096 ∧
    (InodeTable.new 3 4096).get_inode 0 = none ∧
    (InodeTable.new 3 4096).alloc_inode (InodeBitmap.new 4096 1) .Directory 0 0 0o755
      = .error "panic: inode slot index out of bounds" := by decide

/-- Claim C9 (code bug): the claimed invariant `free_blocks ≤ N_B −
data_start` fails immediately after `SuperBlock::new(4096)`: the code sets
`free_blocks = total_blocks = 16384`, while the data area only spans
`16384 − 131 = 16253` blocks.  (The inode half, `free_inodes ≤ N_I`, does
hold there.) -/
theorem C9_superblock_new_violates_bound :
    (SuperBlock.new 4096).free_blocks = 16384 ∧
    (SuperBlock.new 4096).total_blocks = 16384 ∧
    (SuperBlock.new 4096).data_block_start = 131 ∧
    ¬ ((SuperBlock.new 4096).free_blocks ≤
        (SuperBlock.new 4096).total_blocks - (SuperBlock.new 4096).data_block_start) ∧
    (SuperBlock.new 4096).free_inode ≤ (SuperBlock.new 4096).total_inodes := by decide

/-- Claim C5 (code bug): in `cexFS5` the root directory already stores an
entry named `a`, yet `create_dir("/", "a")` succeeds and afterwards the
stored root directory holds two entries named `a` — `add_directory_entry`
deserializes the directory without rebuilding the serde-skipped
`index_map`, so `Directory::add`'s duplicate check consults an empty map
and rejects nothing. -/
theorem C5_duplicate_entry_accepted :
    ((cexFS5.create_dir "/" "a").toOption.bind (fun p =>
        (p.1.data_area.read_block 1).bind (fun bytes =>
          (deserializeDirectory bytes).map (fun d =>
            d.entries.countP (fun e => e.name = "a")))))
      = some 2 := by decide

/-- Claim C6 (code bug): after `delete_file("/", "f")` succeeds on
`cexFS6`, the freed slot's bitmap bit is cleared (as claimed) but the
inode-table record still carries its nonempty UUID — `delete_file` calls
`inode_bitmap.free` only and never `InodeTable::free_inode`, so the
free-inode-has-empty-ID invariant is broken. -/
theorem C6_deleted_inode_record_not_zeroed :
    ((cexFS6.delete_file "/" "f").toOption.map (fun fs2 =>
       (fs2.inode_bitmap.is_used 2, (fs2.inode_table.get_inode 2).map (fun ino => ino.id))))
      = some (false, some generate_uuid) ∧ generate_uuid ≠ "" := by decide

/-- Claim C8, counterexample: in `cexFS8` the path `/d` resolves to a
Directory inode, yet `read_file("/", "d")` does not fail — it returns the
directory's serialized bytes (the first `size` bytes of its data block),
because `read_file` performs no File check. -/
theorem C8_read_file_returns_directory_bytes :
    cexFS8.read_file "/" "d" = .ok (serializeDirectory subDirD) ∧
    serializeDirectory subDirD ≠ [] := by decide

/-- Claim C4, counterexample: on `cexFS4`, `create_dir("/", "a")` followed
by `delete_dir("/", "a")` on the still-empty directory succeeds, restores
`free_inode` to 7, but leaves `free_blocks` at 5 instead of the original 6
— `delete_dir` frees the block in the data bitmap without ever
incrementing the superblock's `free_blocks`. -/
theorem C4_mkdir_rmdir_counterexample :
    (((cexFS4.create_dir "/" "a").bind (fun p => p.1.delete_dir "/" "a")).toOption.map
       (fun fs2 => (fs2.super_block.free_inode, fs2.super_block.free_blocks)))
      = some (7, 5) ∧
    cexFS4.super_block.free_inode = 7 ∧ cexFS4.super_block.free_blocks = 6 ∧
    (5 : Nat) ≠ 6 := by decide

/-- Claim C7, counterexample: `cexDisk7`'s block 0 decodes to a superblock
whose magic is 0 (not 0xDEADBEEF), yet `mount()` succeeds — no magic
verification is performed anywhere in `mount`. -/
theorem C7_mount_accepts_bad_magic :
    ((FileSystem.new cexDisk7).mount).toOption.map (fun fs2 => fs2.super_block.magic)
      = some 0 ∧ (0 : Nat) ≠ 0xDEADBEEF := by decide

/-- Claim C10, counterexample: a data-block bitmap with `total = 3` (not a
multiple of 8): after three allocations the cached free count is 0, yet
`alloc()` does not return none — it grants the padding bit with index 3
(and wraps the free counter below zero). -/
theorem C10_alloc_padding_bit_counterexample :
    (((DataBlockBitmap.new 3 0).alloc.bind (fun p => p.1.alloc)).bind
       (fun p => p.1.alloc)).map (fun p => (p.1.free_blocks, p.1.alloc.map (fun q => q.2)))
      = some (0, some 3) := by decide

/-- Claim C2, counterexample: in the mounted state `cexFS2` the path `/f`
resolves to a File inode and the data bitmap has block 1 — the root
directory's own slot — as its first free block.  `write_file("/f",
[1,2,3])` succeeds, storing the content over the root directory block;
`read_file("/", "f")` then fails instead of returning the bytes. -/
theorem C2_write_read_counterexample :
    (cexFS2.write_file "/f" [1, 2, 3]).isOk = true ∧
    ((cexFS2.write_file "/f" [1, 2, 3]).bind fun fs2 => fs2.read_file "/" "f")
      = .error "Path component not found: f" := by decide

theorem getD_set_self {α : Type} (l : List α) (i : Nat) (v d : α) (h : i < l.length) :
    (l.set i v).getD i d = v := by
  simp [List.getD_eq_getElem?_getD, List.getElem?_set_eq_of_lt, h]

theorem getD_set_ne {α : Type} (l : List α) (i j : Nat) (v d : α) (h : i ≠ j) :
    (l.set i v).getD j d = l.getD j d := by
  simp [List.getD_eq_getElem?_getD, List.getElem?_set_ne h]

/-- Claim C3 (amended): the data area does *not* subtract `start_block`
from the id before indexing its buffer — the id is used directly as a
0-based cache-slot index (bounds-checked against `total_blocks`).  Writing
at id `i` fills slot `i` and leaves every other slot, in particular slot
`i - start_block`, untouched. -/
theorem C3_raw_index_addressing (start total id : Nat) (buf : List Nat)
    (hid : id < total) (hlen : buf.length ≤ 4096) :
    ((((DataArea.new start total).write_block id buf).toOption.bind
        (fun da => da.read_block id))
      = some (buf ++ List.replicate (4096 - buf.length) 0)) ∧
    ∀ j, j < total → j ≠ id →
      ((((DataArea.new start total).write_block id buf).toOption.bind
        (fun da => da.read_block j)) = (DataArea.new start total).read_block j) := by
  have h1 : ¬ id ≥ total := by omega
  have h2 : ¬ buf.length > BLOCK_SIZE := by simp only [BLOCK_SIZE]; omega
  unfold DataArea.write_block DataArea.new DataArea.read_block
  simp only [h1, h2, if_false, Except.toOption, Option.bind]
  constructor
  · rw [getD_set_self _ _ _ _ (by simp only [List.length_replicate]; omega)]
    simp only [BLOCK_SIZE]
  · intro j hj hne
    have h3 : ¬ j ≥ total := by omega
    simp only [h3, if_false]
    rw [getD_set_ne _ _ _ _ _ (by omega)]

/-- Claim C7 (amended): `mount()` reads block 0 and decodes it into the
superblock, aborting with an error — before loading the bitmaps, the inode
table or the data area — when the decode fails.  No magic verification is
performed: a decodable superblock with a mismatched magic is accepted (see
the counterexample). -/
theorem C7_mount_abort_on_decode_failure (fs : FileSystem) (b0 : List Nat)
    (h : fs.disk.read_block 0 = .ok b0) (hd : deserializeSuperBlock b0 = none) :
    fs.mount = .error "deserialize superblock failed" := by
  unfold FileSystem.mount
  rw [h]
  dsimp only
  rw [hd]

theorem C7_mount_abort_on_decode_failure_witness :
    (FileSystem.new cexDisk7bad).mount = .error "deserialize superblock failed" :=
  C7_mount_abort_on_decode_failure (FileSystem.new cexDisk7bad) (cexDisk7bad.data 0) rfl (by decide)

/-- Claim C8 (amended): `read_file` performs no check that the resolved
inode is a File.  When the path resolves to a Directory inode whose first
direct block is nonzero and readable, `read_file` *succeeds* and returns
the first `size` bytes of the directory's data block — the directory's
serialized bytes. -/
theorem C8_read_file_no_type_check (fs : FileSystem) (dir name : String) (i : Nat)
    (ino : Inode) (data : List Nat)
    (h1 : fs.find_inode (dir ++ "/" ++ name) = .ok i)
    (h2 : fs.inode_table.get_inode i = some ino)
    (_h3 : ino.inode_type = .Directory)
    (h4 : ino.direct_blocks.getD 0 0 ≠ 0)
    (h5 : fs.data_area.read_block (ino.direct_blocks.getD 0 0) = some data)
    (h6 : (data.take ino.size).length = ino.size) :
    fs.read_file dir name = .ok (data.take ino.size) := by
  unfold FileSystem.read_file
  rw [h1]
  dsimp only
  rw [h2]
  dsimp only
  rw [if_pos h4, h5]
  dsimp only
  rw [if_pos h6]

theorem count_ones8_le (b : Nat) : count_ones8 b ≤ 8 := by
  unfold count_ones8
  exact le_trans (List.countP_le_length _) (by simp)

theorem byte_full_iff : ∀ b < 256, (count_ones8 b = 8 ↔ b = 255) := by decide

theorem count_ones8_255 : count_ones8 255 = 8 := by decide

theorem count_ones8_zero : count_ones8 0 = 0 := by decide

theorem firstClearBit_exists : ∀ b < 256, b ≠ 255 → firstClearBit b ≠ none := by decide

theorem or_bit_facts : ∀ b < 256, ∀ i < 8, b.testBit i = false →
    count_ones8 (b ||| (1 <<< i)) = count_ones8 b + 1 ∧ b ||| (1 <<< i) < 256 := by decide

theorem and_bit_facts : ∀ b < 256, ∀ i < 8, b &&& (1 <<< i) ≠ 0 →
    count_ones8 (b &&& (255 ^^^ (1 <<< i))) + 1 = count_ones8 b ∧
    b &&& (255 ^^^ (1 <<< i)) < 256 := by decide

theorem firstClearBit_spec {b i : Nat} (h : firstClearBit b = some i) :
    i < 8 ∧ b.testBit i = false := by
  unfold firstClearBit at h
  have h1 := List.find?_some h
  have h2 := List.mem_of_find?_eq_some h
  simp at h1 h2
  exact ⟨h2, h1⟩

theorem popcountBits_nil : popcountBits [] = 0 := rfl

theorem popcountBits_cons (b : Nat) (rest : List Nat) :
    popcountBits (b :: rest) = count_ones8 b + popcountBits rest := by
  simp [popcountBits]

theorem popcountBits_le (bits : List Nat) : popcountBits bits ≤ 8 * bits.length := by
  induction bits with
  | nil => simp [popcountBits_nil]
  | cons b rest ih =>
    rw [popcountBits_cons]
    have := count_ones8_le b
    simp [List.length_cons]
    omega

theorem popcountBits_all_full (bits : List Nat) (h : ∀ b ∈ bits, b = 255) :
    popcountBits bits = 8 * bits.length := by
  induction bits with
  | nil => simp [popcountBits_nil]
  | cons b rest ih =>
    rw [popcountBits_cons, h b (by simp)]
    rw [ih (fun x hx => h x (by simp [hx]))]
    simp [count_ones8_255, List.length_cons]
    ring

theorem all_full_of_popcount (bits : List Nat) (hb : ∀ b ∈ bits, b < 256)
    (h : popcountBits bits = 8 * bits.length) : ∀ b ∈ bits, b = 255 := by
  induction bits with
  | nil => simp
  | cons b rest ih =>
    rw [popcountBits_cons, List.length_cons] at h
    have hble := count_ones8_le b
    have hrle := popcountBits_le rest
    have hb8 : count_ones8 b = 8 := by omega
    have hr : popcountBits rest = 8 * rest.length := by omega
    intro x hx
    rcases List.mem_cons.mp hx with rfl | hx2
    · exact (byte_full_iff x (hb x (by simp))).mp hb8
    · exact ih (fun y hy => hb y (by simp [hy])) hr x hx2

theorem allocScan_none_iff (bits : List Nat) (k : Nat) (hb : ∀ b ∈ bits, b < 256) :
    (allocScan bits k = none ↔ ∀ b ∈ bits, b = 255) := by
  induction bits generalizing k with
  | nil => simp [allocScan]
  | cons b rest ih =>
    unfold allocScan
    by_cases hne : b = 255
    · subst hne
      rw [if_neg (show ¬ ((255 : Nat) ≠ 255) by simp)]
      constructor
      · intro h x hx
        rcases List.mem_cons.mp hx with rfl | hx2
        · rfl
        · match hr : allocScan rest (k + 1) with
          | some (r2, idx) => rw [hr] at h; exact absurd h (by simp)
          | none => exact ((ih (k + 1) (fun y hy => hb y (by simp [hy]))).mp hr) x hx2
      · intro h
        have hrn : allocScan rest (k + 1) = none :=
          (ih (k + 1) (fun y hy => hb y (by simp [hy]))).mpr
            (fun y hy => h y (by simp [hy]))
        rw [hrn]
    · have hfc := firstClearBit_exists b (hb b (by simp)) hne
      rw [if_pos hne]
      match hf : firstClearBit b with
      | none => exact absurd hf hfc
      | some bit =>
        constructor
        · intro h; exact absurd h (by simp)
        · intro h; exact absurd (h b (by simp)) hne

theorem allocScan_some_spec (bits : List Nat) (k : Nat) (bits2 : List Nat) (idx : Nat)
    (hb : ∀ b ∈ bits, b < 256)
    (h : allocScan bits k = some (bits2, idx)) :
    popcountBits bits2 = popcountBits bits + 1 ∧ bits2.length = bits.length ∧
    (∀ b ∈ bits2, b < 256) := by
  induction bits generalizing k bits2 idx with
  | nil => simp [allocScan] at h
  | cons b rest ih =>
    unfold allocScan at h
    by_cases hne : b = 255
    · subst hne
      rw [if_neg (show ¬ ((255 : Nat) ≠ 255) by simp)] at h
      match hr : allocScan rest (k + 1) with
      | none => rw [hr] at h; exact absurd h (by simp)
      | some (r2, idx2) =>
        rw [hr] at h
        simp only [Option.some.injEq, Prod.mk.injEq] at h
        obtain ⟨hbits, hidx⟩ := h
        subst hidx
        obtain ⟨hp, hl, hlt⟩ := ih (k + 1) r2 idx2 (fun y hy => hb y (by simp [hy])) hr
        subst hbits
        refine ⟨?_, by simp [hl], ?_⟩
        · rw [popcountBits_cons, popcountBits_cons, hp]; omega
        · intro x hx
          rcases List.mem_cons.mp hx with rfl | hx2
          · exact hb _ (by simp)
          · exact hlt x hx2
    · rw [if_pos hne] at h
      match hf : firstClearBit b with
      | none =>
        rw [hf] at h
        match hr : allocScan rest (k + 1) with
        | none => rw [hr] at h; exact absurd h (by simp)
        | some (r2, idx2) =>
          rw [hr] at h
          simp only [Option.some.injEq, Prod.mk.injEq] at h
          obtain ⟨hbits, hidx⟩ := h
          subst hidx
          obtain ⟨hp, hl, hlt⟩ := ih (k + 1) r2 idx2 (fun y hy => hb y (by simp [hy])) hr
          subst hbits
          refine ⟨?_, by simp [hl], ?_⟩
          · rw [popcountBits_cons, popcountBits_cons, hp]; omega
          · intro x hx
            rcases List.mem_cons.mp hx with rfl | hx2
            · exact hb x (by simp)
            · exact hlt x hx2
      | some bit =>
        rw [hf] at h
        simp only [Option.some.injEq, Prod.mk.injEq] at h
        obtain ⟨hbits, hidx⟩ := h
        obtain ⟨hbit8, hclear⟩ := firstClearBit_spec hf
        obtain ⟨hcount, hlt255⟩ := or_bit_facts b (hb b (by simp)) bit hbit8 hclear
        subst hbits
        refine ⟨?_, by simp, ?_⟩
        · rw [popcountBits_cons, popcountBits_cons, hcount]; omega
        · intro x hx
          rcases List.mem_cons.mp hx with rfl | hx2
          · exact hlt255
          · exact hb x (by simp [hx2])

theorem popcountBits_set (bits : List Nat) (j b2 b : Nat)
    (hj : bits.get? j = some b) :
    popcountBits (bits.set j b2) + count_ones8 b = popcountBits bits + count_ones8 b2 := by
  induction bits generalizing j with
  | nil => simp at hj
  | cons x rest ih =>
    match j with
    | 0 =>
      have hx : some x = some b := hj
      simp only [Option.some.injEq] at hx
      subst hx
      simp [List.set, popcountBits_cons]
      omega
    | j2 + 1 =>
      have hj2 : rest.get? j2 = some b := hj
      have := ih j2 hj2
      simp [List.set, popcountBits_cons]
      omega

theorem mem_of_mem_set {α : Type} {l : List α} {j : Nat} {v x : α}
    (hx : x ∈ l.set j v) : x = v ∨ x ∈ l := by
  rcases List.mem_or_eq_of_mem_set hx with h | h
  · exact Or.inr h
  · exact Or.inl h

theorem DBInv_new (total start : Nat) (h : total < 2 ^ 64) :
    DBInv (DataBlockBitmap.new total start) := by
  unfold DBInv DataBlockBitmap.new
  refine ⟨by simp, ?_, ?_, ?_, h⟩
  · intro b hb
    rw [List.eq_of_mem_replicate hb]
    omega
  · have : popcountBits (List.replicate ((total + 7) / 8) 0) = 0 := by
      unfold popcountBits
      rw [List.map_replicate, count_ones8_zero, List.sum_replicate]
      simp
    simp [this]
  · simp
    have : popcountBits (List.replicate ((total + 7) / 8) 0) = 0 := by
      unfold popcountBits
      rw [List.map_replicate, count_ones8_zero, List.sum_replicate]
      simp
    simp [this]

theorem DBInv_alloc {bm bm2 : DataBlockBitmap} {idx : Nat}
    (h8 : 8 ∣ bm.total_blocks) (hinv : DBInv bm)
    (h : bm.alloc = some (bm2, idx)) : DBInv bm2 := by
  obtain ⟨hlen, hbytes, hpc, hfree, hword⟩ := hinv
  unfold DataBlockBitmap.alloc at h
  match hs : allocScan bm.bits 0 with
  | none => rw [hs] at h; exact absurd h (by simp)
  | some (bits2, idx2) =>
    rw [hs] at h
    simp only [Option.some.injEq, Prod.mk.injEq] at h
    obtain ⟨hbm2, _⟩ := h
    obtain ⟨hp2, hl2, hb2⟩ := allocScan_some_spec bm.bits 0 bits2 idx2 hbytes hs
    have hlen8 : 8 * bm.bits.length = bm.total_blocks := by
      obtain ⟨c, hc⟩ := h8
      rw [hlen, hc]
      omega
    have hlt : popcountBits bm.bits < bm.total_blocks := by
      rcases Nat.lt_or_ge (popcountBits bm.bits) bm.total_blocks with hl | hg
      · exact hl
      · exfalso
        have hpceq : popcountBits bm.bits = 8 * bm.bits.length := by
          have := popcountBits_le bm.bits
          omega
        have hall := all_full_of_popcount bm.bits hbytes hpceq
        have := (allocScan_none_iff bm.bits 0 hbytes).mpr hall
        rw [this] at hs
        exact absurd hs (by simp)
    subst hbm2
    refine ⟨by simpa [hl2] using hlen, hb2, by simpa [hp2] using hlt, ?_, hword⟩
    simp only [hp2, hfree]
    unfold wsub64
    omega

theorem DBInv_free {bm bm2 : DataBlockBitmap} {i : Nat}
    (hinv : DBInv bm) (h : bm.free i = .ok bm2) : DBInv bm2 := by
  obtain ⟨hlen, hbytes, hpc, hfree, hword⟩ := hinv
  unfold DataBlockBitmap.free at h
  by_cases hrange : i > bm.total_blocks
  · rw [if_pos hrange] at h
    simp only [Except.ok.injEq] at h
    subst h
    exact ⟨hlen, hbytes, hpc, hfree, hword⟩
  · rw [if_neg hrange] at h
    match hg : bm.bits.get? (i / 8) with
    | none => rw [hg] at h; exact absurd h (by simp)
    | some b =>
      rw [hg] at h
      dsimp only at h
      by_cases hset : b &&& (1 <<< (i % 8)) ≠ 0
      · rw [if_pos hset] at h
        simp only [Except.ok.injEq] at h
        subst h
        unfold DBInv
        dsimp only
        have hbmem : b ∈ bm.bits := List.get?_mem hg
        have hblt : b < 256 := hbytes b hbmem
        have him8 : i % 8 < 8 := Nat.mod_lt _ (by omega)
        obtain ⟨hcount, hlt255⟩ := and_bit_facts b hblt (i % 8) him8 hset
        have hpcset := popcountBits_set bm.bits (i / 8)
          (b &&& (255 ^^^ (1 <<< (i % 8)))) b hg
        have hpos : 1 ≤ popcountBits bm.bits := by
          have := count_ones8_le (b &&& (255 ^^^ (1 <<< (i % 8))))
          omega
        refine ⟨by simpa using hlen, ?_, by omega, ?_, hword⟩
        · intro x hx
          rcases mem_of_mem_set hx with rfl | hx2
          · exact hlt255
          · exact hbytes x hx2
        · simp only [hfree]
          unfold wadd64
          omega
      · rw [if_neg hset] at h
        simp only [Except.ok.injEq] at h
        subst h
        exact ⟨hlen, hbytes, hpc, hfree, hword⟩

theorem DBalloc_total_eq {bm bm2 : DataBlockBitmap} {idx : Nat}
    (h : bm.alloc = some (bm2, idx)) : bm2.total_blocks = bm.total_blocks := by
  unfold DataBlockBitmap.alloc at h
  match hs : allocScan bm.bits 0 with
  | none => rw [hs] at h; exact absurd h (by simp)
  | some (bits2, idx2) =>
    rw [hs] at h
    simp only [Option.some.injEq, Prod.mk.injEq] at h
    obtain ⟨hbm2, _⟩ := h
    subst hbm2
    rfl

theorem DBfree_total_eq {bm bm2 : DataBlockBitmap} {i : Nat}
    (h : bm.free i = .ok bm2) : bm2.total_blocks = bm.total_blocks := by
  unfold DataBlockBitmap.free at h
  by_cases hrange : i > bm.total_blocks
  · rw [if_pos hrange] at h
    simp only [Except.ok.injEq] at h
    subst h; rfl
  · rw [if_neg hrange] at h
    match hg : bm.bits.get? (i / 8) with
    | none => rw [hg] at h; exact absurd h (by simp)
    | some b =>
      rw [hg] at h
      dsimp only at h
      by_cases hset : b &&& (1 <<< (i % 8)) ≠ 0
      · rw [if_pos hset] at h
        simp only [Except.ok.injEq] at h
        subst h; rfl
      · rw [if_neg hset] at h
        simp only [Except.ok.injEq] at h
        subst h; rfl

theorem DBReach_inv {bm : DataBlockBitmap} (h : DBReach bm)
    (h8 : 8 ∣ bm.total_blocks) : DBInv bm := by
  induction h with
  | new total start hw => exact DBInv_new total start hw
  | alloc hr halloc ih =>
    have ht := DBalloc_total_eq halloc
    exact DBInv_alloc (ht ▸ h8) (ih (ht ▸ h8)) halloc
  | free hr hfree ih =>
    have ht := DBfree_total_eq hfree
    exact DBInv_free (ih (ht ▸ h8)) hfree

theorem DB_alloc_none_iff_free_zero {bm : DataBlockBitmap} (h : DBReach bm)
    (h8 : 8 ∣ bm.total_blocks) : (bm.alloc = none ↔ bm.free_blocks = 0) := by
  obtain ⟨hlen, hbytes, hpc, hfree, hword⟩ := DBReach_inv h h8
  have hlen8 : 8 * bm.bits.length = bm.total_blocks := by
    obtain ⟨c, hc⟩ := h8
    rw [hlen, hc]
    omega
  have halloc : bm.alloc = none ↔ allocScan bm.bits 0 = none := by
    unfold DataBlockBitmap.alloc
    match hs : allocScan bm.bits 0 with
    | none => simp
    | some (bits2, idx2) => simp
  rw [halloc, allocScan_none_iff bm.bits 0 hbytes]
  constructor
  · intro hall
    have := popcountBits_all_full bm.bits hall
    omega
  · intro hzero
    have hple := popcountBits_le bm.bits
    have : popcountBits bm.bits = 8 * bm.bits.length := by omega
    exact all_full_of_popcount bm.bits hbytes this

theorem IBInv_new (total start : Nat) (h : total < 2 ^ 64) :
    IBInv (InodeBitmap.new total start) := by
  unfold IBInv InodeBitmap.new
  refine ⟨by simp, ?_, ?_, ?_, h⟩
  · intro b hb
    rw [List.eq_of_mem_replicate hb]
    omega
  · have : popcountBits (List.replicate ((total + 7) / 8) 0) = 0 := by
      unfold popcountBits
      rw [List.map_replicate, count_ones8_zero, List.sum_replicate]
      simp
    simp [this]
  · simp
    have : popcountBits (List.replicate ((total + 7) / 8) 0) = 0 := by
      unfold popcountBits
      rw [List.map_replicate, count_ones8_zero, List.sum_replicate]
      simp
    simp [this]

theorem IBInv_alloc {bm bm2 : InodeBitmap} {idx : Nat}
    (h8 : 8 ∣ bm.total_inodes) (hinv : IBInv bm)
    (h : bm.alloc = some (bm2, idx)) : IBInv bm2 := by
  obtain ⟨hlen, hbytes, hpc, hfree, hword⟩ := hinv
  unfold InodeBitmap.alloc at h
  match hs : allocScan bm.bits 0 with
  | none => rw [hs] at h; exact absurd h (by simp)
  | some (bits2, idx2) =>
    rw [hs] at h
    simp only [Option.some.injEq, Prod.mk.injEq] at h
    obtain ⟨hbm2, _⟩ := h
    obtain ⟨hp2, hl2, hb2⟩ := allocScan_some_spec bm.bits 0 bits2 idx2 hbytes hs
    have hlen8 : 8 * bm.bits.length = bm.total_inodes := by
      obtain ⟨c, hc⟩ := h8
      rw [hlen, hc]
      omega
    have hlt : popcountBits bm.bits < bm.total_inodes := by
      rcases Nat.lt_or_ge (popcountBits bm.bits) bm.total_inodes with hl | hg
      · exact hl
      · exfalso
        have hpceq : popcountBits bm.bits = 8 * bm.bits.length := by
          have := popcountBits_le bm.bits
          omega
        have hall := all_full_of_popcount bm.bits hbytes hpceq
        have := (allocScan_none_iff bm.bits 0 hbytes).mpr hall
        rw [this] at hs
        exact absurd hs (by simp)
    subst hbm2
    refine ⟨by simpa [hl2] using hlen, hb2, by simpa [hp2] using hlt, ?_, hword⟩
    simp only [hp2, hfree]
    unfold wsub64
    omega

theorem IBInv_free {bm bm2 : InodeBitmap} {i : Nat}
    (hinv : IBInv bm) (h : bm.free i = .ok bm2) : IBInv bm2 := by
  obtain ⟨hlen, hbytes, hpc, hfree, hword⟩ := hinv
  unfold InodeBitmap.free at h
  by_cases hrange : i ≥ bm.total_inodes
  · rw [if_pos hrange] at h
    simp only [Except.ok.injEq] at h
    subst h
    exact ⟨hlen, hbytes, hpc, hfree, hword⟩
  · rw [if_neg hrange] at h
    match hg : bm.bits.get? (i / 8) with
    | none => rw [hg] at h; exact absurd h (by simp)
    | some b =>
      rw [hg] at h
      dsimp only at h
      by_cases hset : b &&& (1 <<< (i % 8)) ≠ 0
      · rw [if_pos hset] at h
        simp only [Except.ok.injEq] at h
        subst h
        unfold IBInv
        dsimp only
        have hbmem : b ∈ bm.bits := List.get?_mem hg
        have hblt : b < 256 := hbytes b hbmem
        have him8 : i % 8 < 8 := Nat.mod_lt _ (by omega)
        obtain ⟨hcount, hlt255⟩ := and_bit_facts b hblt (i % 8) him8 hset
        have hpcset := popcountBits_set bm.bits (i / 8)
          (b &&& (255 ^^^ (1 <<< (i % 8)))) b hg
        have hpos : 1 ≤ popcountBits bm.bits := by
          have := count_ones8_le (b &&& (255 ^^^ (1 <<< (i % 8))))
          omega
        refine ⟨by simpa using hlen, ?_, by omega, ?_, hword⟩
        · intro x hx
          rcases mem_of_mem_set hx with rfl | hx2
          · exact hlt255
          · exact hbytes x hx2
        · simp only [hfree]
          unfold wadd64
          omega
      · rw [if_neg hset] at h
        simp only [Except.ok.injEq] at h
        subst h
        exact ⟨hlen, hbytes, hpc, hfree, hword⟩

theorem IBalloc_total_eq {bm bm2 : InodeBitmap} {idx : Nat}
    (h : bm.alloc = some (bm2, idx)) : bm2.total_inodes = bm.total_inodes := by
  unfold InodeBitmap.alloc at h
  match hs : allocScan bm.bits 0 with
  | none => rw [hs] at h; exact absurd h (by simp)
  | some (bits2, idx2) =>
    rw [hs] at h
    simp only [Option.some.injEq, Prod.mk.injEq] at h
    obtain ⟨hbm2, _⟩ := h
    subst hbm2
    rfl

theorem IBfree_total_eq {bm bm2 : InodeBitmap} {i : Nat}
    (h : bm.free i = .ok bm2) : bm2.total_inodes = bm.total_inodes := by
  unfold InodeBitmap.free at h
  by_cases hrange : i ≥ bm.total_inodes
  · rw [if_pos hrange] at h
    simp only [Except.ok.injEq] at h
    subst h; rfl
  · rw [if_neg hrange] at h
    match hg : bm.bits.get? (i / 8) with
    | none => rw [hg] at h; exact absurd h (by simp)
    | some b =>
      rw [hg] at h
      dsimp only at h
      by_cases hset : b &&& (1 <<< (i % 8)) ≠ 0
      · rw [if_pos hset] at h
        simp only [Except.ok.injEq] at h
        subst h; rfl
      · rw [if_neg hset] at h
        simp only [Except.ok.injEq] at h
        subst h; rfl

theorem IBReach_inv {bm : InodeBitmap} (h : IBReach bm)
    (h8 : 8 ∣ bm.total_inodes) : IBInv bm := by
  induction h with
  | new total start hw => exact IBInv_new total start hw
  | alloc hr halloc ih =>
    have ht := IBalloc_total_eq halloc
    exact IBInv_alloc (ht ▸ h8) (ih (ht ▸ h8)) halloc
  | free hr hfree ih =>
    have ht := IBfree_total_eq hfree
    exact IBInv_free (ih (ht ▸ h8)) hfree

theorem IB_alloc_none_iff_free_zero {bm : InodeBitmap} (h : IBReach bm)
    (h8 : 8 ∣ bm.total_inodes) : (bm.alloc = none ↔ bm.free_inodes = 0) := by
  obtain ⟨hlen, hbytes, hpc, hfree, hword⟩ := IBReach_inv h h8
  have hlen8 : 8 * bm.bits.length = bm.total_inodes := by
    obtain ⟨c, hc⟩ := h8
    rw [hlen, hc]
    omega
  have halloc : bm.alloc = none ↔ allocScan bm.bits 0 = none := by
    unfold InodeBitmap.alloc
    match hs : allocScan bm.bits 0 with
    | none => simp
    | some (bits2, idx2) => simp
  rw [halloc, allocScan_none_iff bm.bits 0 hbytes]
  constructor
  · intro hall
    have := popcountBits_all_full bm.bits hall
    omega
  · intro hzero
    have hple := popcountBits_le bm.bits
    have : popcountBits bm.bits = 8 * bm.bits.length := by omega
    exact all_full_of_popcount bm.bits hbytes this

/-- Claim C10 (amended): over every bitmap state reachable by `new`,
`alloc` and `free`, *provided the total is a multiple of 8*, `alloc()`
returns none iff the cached free count is 0 — for both the data-block
bitmap and the inode bitmap.  For a total that is not a multiple of 8 the
equivalence fails: `alloc` can grant a padding bit with index ≥ total even
when the free count is 0, wrapping the counter (see the counterexample). -/
theorem C10_alloc_none_iff_free_zero :
    (∀ bm : DataBlockBitmap, DBReach bm → 8 ∣ bm.total_blocks →
        (bm.alloc = none ↔ bm.free_blocks = 0)) ∧
    (∀ bm : InodeBitmap, IBReach bm → 8 ∣ bm.total_inodes →
        (bm.alloc = none ↔ bm.free_inodes = 0)) :=
  ⟨fun _ h h8 => DB_alloc_none_iff_free_zero h h8,
   fun _ h h8 => IB_alloc_none_iff_free_zero h h8⟩

theorem C10_alloc_none_iff_free_zero_witness :
    ((DataBlockBitmap.new 8 2).alloc = none ↔ (DataBlockBitmap.new 8 2).free_blocks = 0) ∧
    ((InodeBitmap.new 8 1).alloc = none ↔ (InodeBitmap.new 8 1).free_inodes = 0) :=
  ⟨C10_alloc_none_iff_free_zero.1 (DataBlockBitmap.new 8 2) (DBReach.new 8 2 (by decide)) (by decide),
   C10_alloc_none_iff_free_zero.2 (InodeBitmap.new 8 1) (IBReach.new 8 1 (by decide)) (by decide)⟩


/-- Claim C3, counterexample: for a data area with `start_block = 2`,
writing at the absolute id `2 + 0` must, per the claim, land in cached
slot 0.  The write succeeds, but slot 0 still holds zeros while slot 2
received the byte. -/
theorem C3_absolute_id_counterexample :
    ((DataArea.new 2 5).write_block (2 + 0) [7]).isOk = true ∧
    (((DataArea.new 2 5).write_block (2 + 0) [7]).toOption.bind
       (fun da => (da.read_block 0).map (fun l => l.take 1))) = some [0] ∧
    (((DataArea.new 2 5).write_block (2 + 0) [7]).toOption.bind
       (fun da => (da.read_block 2).map (fun l => l.take 1))) = some [7] := by decide

theorem C3_raw_index_addressing_witness :
    (((DataArea.new 2 5).write_block 2 [7]).toOption.bind
        (fun da => da.read_block 2))
      = some ([7] ++ List.replicate (4096 - [7].length) 0) :=
  (C3_raw_index_addressing 2 5 2 [7] (by decide) (by decide)).1

theorem C8_read_file_no_type_check_witness :
    cexFS8.read_file "/" "d"
      = .ok ((serializeDirectory subDirD ++
          List.replicate (4096 - (serializeDirectory subDirD).length) 0).take
            (serializeDirectory subDirD).length) :=
  C8_read_file_no_type_check cexFS8 "/" "d" 1
    (subDirInode 2 (serializeDirectory subDirD).length)
    (serializeDirectory subDirD ++
      List.replicate (4096 - (serializeDirectory subDirD).length) 0)
    (by decide) rfl (by decide) (by decide) rfl (by decide)
